import Mathlib

/-!
Verification development for the SPARK-OF-LIGHT snapshot-consistent mutation
core: domain entities, runtime validators, the two domain services
(master plan and outreach), and the JSON snapshot persistence adapters,
shallowly embedded from the TypeScript sources.

Runtime JavaScript values crossing the validation boundary are modelled by
an untyped `Json` value type; entity records in memory are modelled by
plain structures whose enum-typed fields are strings (their runtime
representation).  Injected collaborators (the id generator and the clock)
are modelled as streams `Nat → String` together with a call counter, so
that successive calls inside one operation are distinguishable.
-/

/-- The whitespace characters JS `String.prototype.jsTrim` strips (restricted
to the ASCII set; exotic Unicode space separators are out of modelled scope). -/
def isJsWhitespace (c : Char) : Bool :=
  c == ' ' || c == '\t' || c == '\n' || c == '\r' || c == '\u000B' || c == '\u000C'

/-- JS `s.jsTrim()`, written with structural list recursion so that closed
calls reduce inside the kernel. -/
def String.jsTrim (s : String) : String :=
  ⟨((s.data.dropWhile isJsWhitespace).reverse.dropWhile isJsWhitespace).reverse⟩

instance {ε α : Type} [DecidableEq ε] [DecidableEq α] : DecidableEq (Except ε α)
  | .error e, .error f =>
    if h : e = f then .isTrue (by rw [h]) else .isFalse (fun hh => h (by cases hh; rfl))
  | .error _, .ok _ => .isFalse (fun h => Except.noConfusion h)
  | .ok _, .error _ => .isFalse (fun h => Except.noConfusion h)
  | .ok a, .ok b =>
    if h : a = b then .isTrue (by rw [h]) else .isFalse (fun hh => h (by cases hh; rfl))

namespace Spark

/-- Untyped runtime value (the post-`JSON.parse` shape). `jobj` holds its
fields as an association list; an absent key models `undefined`. -/
inductive Json where
  | jnull
  | jbool (b : Bool)
  | jnum (n : Int)
  | jstr (s : String)
  | jarr (elems : List Json)
  | jobj (fields : List (String × Json))

/-- Property read `input.k` (destructuring): absent key gives `none`
(undefined); reading from a non-object also gives `none`. -/
def Json.get? : Json → String → Option Json
  | .jobj fs, k => fs.lookup k
  | _, _ => none

/-- `isObj` from the validators: `typeof v === 'object' && v !== null &&
!Array.isArray(v)`. -/
def isObjJ : Json → Bool
  | .jobj _ => true
  | _ => false

/-- `typeof v === 'string'` on a (possibly undefined) property. -/
def isStrO : Option Json → Bool
  | some (.jstr _) => true
  | _ => false

/-- Extract the string payload; only consulted after `isStrO`-style guards. -/
def strO : Option Json → String
  | some (.jstr s) => s
  | _ => ""

/-- `isUUID`: `typeof v === 'string' && v.length > 0`. -/
def isUUIDo : Option Json → Bool
  | some (.jstr s) => s.length > 0
  | _ => false

/-- `typeof v === 'string' && v.jsTrim() !== ''` (the `!name.jsTrim()` check;
JS `trim` modelled by `String.jsTrim`, which agrees on ASCII whitespace). -/
def isNonEmptyStrO (v : Option Json) : Bool :=
  isStrO v && (strO v).jsTrim ≠ ""

/-- Ten-character `YYYY-MM-DD` shape, the regex `^\d{4}-\d{2}-\d{2}$`. -/
def isISODateStr (s : String) : Bool :=
  match s.data with
  | [y1, y2, y3, y4, a, m1, m2, b, d1, d2] =>
    y1.isDigit && y2.isDigit && y3.isDigit && y4.isDigit && a == '-' &&
    m1.isDigit && m2.isDigit && b == '-' && d1.isDigit && d2.isDigit
  | _ => false

/-- Twenty-character tail `YYYY-MM-DDThh:mm:ssZ`. -/
def isDateTimeTail : List Char → Bool
  | [y1, y2, y3, y4, a, m1, m2, b, d1, d2, t, h1, h2, c, n1, n2, e, s1, s2, z] =>
    y1.isDigit && y2.isDigit && y3.isDigit && y4.isDigit && a == '-' &&
    m1.isDigit && m2.isDigit && b == '-' && d1.isDigit && d2.isDigit &&
    t == 'T' && h1.isDigit && h2.isDigit && c == ':' && n1.isDigit && n2.isDigit &&
    e == ':' && s1.isDigit && s2.isDigit && z == 'Z'
  | _ => false

/-- The regex `/\d{4}-\d{2}-\d{2}T\d{2}:\d{2}:\d{2}Z$/`: anchored only at
the end, so it accepts any string whose final twenty characters have the
date-time shape. -/
def isISODateTimeStr (s : String) : Bool :=
  let cs := s.data
  isDateTimeTail (cs.drop (cs.length - 20))

/-- Date check on a property (`isISODateString`). -/
def isISODateO (v : Option Json) : Bool :=
  match v with
  | some (.jstr s) => isISODateStr s
  | _ => false

/-- Date-time check on a property (`isISODateTimeString`). -/
def isISODateTimeO (v : Option Json) : Bool :=
  match v with
  | some (.jstr s) => isISODateTimeStr s
  | _ => false

/-- `enumIncludes(arr, v)`: `typeof v === 'string' && arr.includes(v)`. -/
def enumIncludesO (arr : List String) (v : Option Json) : Bool :=
  match v with
  | some (.jstr s) => arr.contains s
  | _ => false

/-- `Array.isArray(v) && !v.some(t => typeof t !== 'string')`. -/
def isStrArrayO : Option Json → Bool
  | some (.jarr xs) => xs.all fun x => match x with | .jstr _ => true | _ => false
  | _ => false

/-- Extract a string array; only consulted after `isStrArrayO`. -/
def strArrO : Option Json → List String
  | some (.jarr xs) => xs.map fun x => match x with | .jstr s => s | _ => ""
  | _ => []

/-- `Array.isArray(v) && !v.some(a => !isUUID(a))`. -/
def isUUIDArrayO : Option Json → Bool
  | some (.jarr xs) => xs.all fun x => match x with | .jstr s => s.length > 0 | _ => false
  | _ => false

/-- `v === null`. -/
def isNullO : Option Json → Bool
  | some .jnull => true
  | _ => false

/-- `v === null ? null : v` as an optional string (used after
null-or-UUID / null-or-date guards). -/
def optStrO : Option Json → Option String
  | some (.jstr s) => some s
  | _ => none

-- ─────────────────────────────────────────────────────────────
-- Domain entities (sparkModels.ts); enum fields kept as runtime strings
-- ─────────────────────────────────────────────────────────────

structure Project where
  id : String
  name : String
  description : String
  status : String
  start_date : String
  target_end_date : String
  color : String
  created_at : String
  updated_at : String
deriving Repr, DecidableEq

structure ChecklistItem where
  id : String
  label : String
  checked : Bool
deriving Repr, DecidableEq

structure PlanItem where
  id : String
  project_id : String
  title : String
  description : String
  category : String
  status : String
  due_date : Option String
  priority : String
  checklist : List ChecklistItem
  notes : String
  created_at : String
  updated_at : String
deriving Repr, DecidableEq

structure ContactCategory where
  id : String
  name : String
  color : String
  tags : List String
  created_at : String
  updated_at : String
deriving Repr, DecidableEq

structure Contact where
  id : String
  category_id : String
  organization : String
  contact_name : String
  role : String
  phone : String
  email : String
  mailing_address : String
  website_url : String
  preferred_method : String
  tags : List String
  created_at : String
  updated_at : String
deriving Repr, DecidableEq

structure OutreachAction where
  id : String
  contact_id : String
  date : String
  method : String
  summary : String
  artifacts_sent : List String
  linked_artifact_version : Option String
  outcome_status : String
  next_follow_up_date : Option String
  created_at : String
deriving Repr, DecidableEq

structure FollowUpItem where
  id : String
  contact_id : String
  outreach_action_id : Option String
  due_date : String
  status : String
  notes : String
  created_at : String
deriving Repr, DecidableEq

structure OutcomeRecord where
  id : String
  contact_id : String
  final_status : String
  date_closed : String
  reason : String
  lesson_learned : String
  referred_contact_id : Option String
  created_at : String
deriving Repr, DecidableEq

-- ─────────────────────────────────────────────────────────────
-- Enum literal tables (masterPlanValidators.ts / outreachValidators.ts)
-- ─────────────────────────────────────────────────────────────

def PROJECT_STATUS : List String := ["Active", "OnHold", "Completed", "Archived"]
def PLAN_ITEM_STATUS : List String := ["NotStarted", "InProgress", "Done", "Dropped"]
def PLAN_ITEM_PRIORITY : List String := ["Low", "Normal", "High", "Critical"]
def PLAN_ITEM_CATEGORY : List String :=
  ["Research", "Drafting", "Outreach", "Evidence", "Admin", "Other"]
def PREFERRED_METHOD : List String := ["Call", "Email", "Mail", "Form", "Combo"]
def OUTREACH_METHOD : List String := ["Call", "Email", "Mail", "Meeting", "Other"]
def OUTREACH_OUTCOME : List String :=
  ["None", "Waiting", "Positive", "Negative", "ReferredElsewhere"]
def FOLLOW_UP_STATUS : List String := ["Open", "Completed", "Cancelled"]
def OUTCOME_FINAL : List String :=
  ["NoResponse", "Declined", "NotFit", "CompletedHelp", "Other"]

/-- `typeof v === 'boolean'`. -/
def isBoolO : Option Json → Bool
  | some (.jbool _) => true
  | _ => false

/-- Extract a boolean; only consulted after `isBoolO`. -/
def boolO : Option Json → Bool
  | some (.jbool b) => b
  | _ => false

/-- `Array.isArray(v)`. -/
def isArrayO : Option Json → Bool
  | some (.jarr _) => true
  | _ => false

/-- Extract an array; only consulted after `isArrayO`. -/
def arrO : Option Json → List Json
  | some (.jarr xs) => xs
  | _ => []

-- ─────────────────────────────────────────────────────────────
-- Master-plan validators (masterPlanValidators.ts): errors are
-- accumulated into an array and joined into one thrown message.
-- ─────────────────────────────────────────────────────────────

/-- The `errors` array built by `validateChecklistItem` (one entry per
violated field, `pushErr` format `field: msg`). -/
def checklistItemErrors (parentField : String) (input : Json) : List String :=
  (if !(isUUIDo (input.get? "id")) then [parentField ++ ".id: invalid UUID"] else []) ++
  (if !(isNonEmptyStrO (input.get? "label")) then
    [parentField ++ ".label: must be non-empty string"] else []) ++
  (if !(isBoolO (input.get? "checked")) then
    [parentField ++ ".checked: must be boolean"] else [])

def validateChecklistItem (input : Json) (parentField : String) :
    Except String ChecklistItem :=
  if !(isObjJ input) then .error (parentField ++ " item must be an object")
  else if checklistItemErrors parentField input ≠ [] then
    .error ("ChecklistItem validation failed: " ++
      String.intercalate "; " (checklistItemErrors parentField input))
  else
    .ok { id := strO (input.get? "id"),
          label := (strO (input.get? "label")).jsTrim,
          checked := boolO (input.get? "checked") }

/-- The `errors` array built by `validateProject`. -/
def projectErrors (input : Json) : List String :=
  (if !(isUUIDo (input.get? "id")) then ["id: invalid UUID"] else []) ++
  (if !(isNonEmptyStrO (input.get? "name")) then
    ["name: must be non-empty string"] else []) ++
  (if !(isStrO (input.get? "description")) then
    ["description: must be string"] else []) ++
  (if !(enumIncludesO PROJECT_STATUS (input.get? "status")) then
    ["status: must be one of " ++ String.intercalate ", " PROJECT_STATUS] else []) ++
  (if !(isISODateO (input.get? "start_date")) then
    ["start_date: must be YYYY-MM-DD"] else []) ++
  (if !(isISODateO (input.get? "target_end_date")) then
    ["target_end_date: must be YYYY-MM-DD"] else []) ++
  (if !(isNonEmptyStrO (input.get? "color")) then
    ["color: must be non-empty string"] else []) ++
  (if !(isISODateTimeO (input.get? "created_at")) then
    ["created_at: must be ISO timestamp (Z)"] else []) ++
  (if !(isISODateTimeO (input.get? "updated_at")) then
    ["updated_at: must be ISO timestamp (Z)"] else [])

def validateProject (input : Json) : Except String Project :=
  if !(isObjJ input) then .error "Project must be an object"
  else if projectErrors input ≠ [] then
    .error ("Project validation failed: " ++ String.intercalate "; " (projectErrors input))
  else
    .ok { id := strO (input.get? "id"),
          name := (strO (input.get? "name")).jsTrim,
          description := (strO (input.get? "description")).jsTrim,
          status := strO (input.get? "status"),
          start_date := strO (input.get? "start_date"),
          target_end_date := strO (input.get? "target_end_date"),
          color := (strO (input.get? "color")).jsTrim,
          created_at := strO (input.get? "created_at"),
          updated_at := strO (input.get? "updated_at") }

/-- The `errors` array built by `validatePlanItem` (top-level fields;
checklist elements are validated afterwards, element by element). -/
def planItemErrors (input : Json) : List String :=
  (if !(isUUIDo (input.get? "id")) then ["id: invalid UUID"] else []) ++
  (if !(isUUIDo (input.get? "project_id")) then ["project_id: invalid UUID"] else []) ++
  (if !(isNonEmptyStrO (input.get? "title")) then
    ["title: must be non-empty string"] else []) ++
  (if !(isStrO (input.get? "description")) then
    ["description: must be string"] else []) ++
  (if !(enumIncludesO PLAN_ITEM_CATEGORY (input.get? "category")) then
    ["category: must be one of " ++ String.intercalate ", " PLAN_ITEM_CATEGORY] else []) ++
  (if !(enumIncludesO PLAN_ITEM_STATUS (input.get? "status")) then
    ["status: must be one of " ++ String.intercalate ", " PLAN_ITEM_STATUS] else []) ++
  (if !(isNullO (input.get? "due_date") || isISODateO (input.get? "due_date")) then
    ["due_date: must be null or YYYY-MM-DD"] else []) ++
  (if !(enumIncludesO PLAN_ITEM_PRIORITY (input.get? "priority")) then
    ["priority: must be one of " ++ String.intercalate ", " PLAN_ITEM_PRIORITY] else []) ++
  (if !(isArrayO (input.get? "checklist")) then ["checklist: must be array"] else []) ++
  (if !(isStrO (input.get? "notes")) then ["notes: must be string"] else []) ++
  (if !(isISODateTimeO (input.get? "created_at")) then
    ["created_at: must be ISO timestamp (Z)"] else []) ++
  (if !(isISODateTimeO (input.get? "updated_at")) then
    ["updated_at: must be ISO timestamp (Z)"] else [])

/-- The `.map` over the raw checklist array: the first element whose
validation throws aborts the whole map, wrapped with its index. -/
def mapValidateChecklist (idx : Nat) : List Json → Except String (List ChecklistItem)
  | [] => .ok []
  | c :: rest =>
    match validateChecklistItem c ("checklist[" ++ toString idx ++ "]") with
    | .error e => .error ("PlanItem checklist item " ++ toString idx ++ " error: " ++ e)
    | .ok v =>
      match mapValidateChecklist (idx + 1) rest with
      | .error e => .error e
      | .ok vs => .ok (v :: vs)

def validatePlanItem (input : Json) : Except String PlanItem :=
  if !(isObjJ input) then .error "PlanItem must be an object"
  else if planItemErrors input ≠ [] then
    .error ("PlanItem validation failed: " ++ String.intercalate "; " (planItemErrors input))
  else
    match mapValidateChecklist 0 (arrO (input.get? "checklist")) with
    | .error e => .error e
    | .ok cs =>
      .ok { id := strO (input.get? "id"),
            project_id := strO (input.get? "project_id"),
            title := (strO (input.get? "title")).jsTrim,
            description := (strO (input.get? "description")).jsTrim,
            category := strO (input.get? "category"),
            status := strO (input.get? "status"),
            due_date := optStrO (input.get? "due_date"),
            priority := strO (input.get? "priority"),
            checklist := cs,
            notes := (strO (input.get? "notes")).jsTrim,
            created_at := strO (input.get? "created_at"),
            updated_at := strO (input.get? "updated_at") }

-- ─────────────────────────────────────────────────────────────
-- Outreach validators (outreachValidators.ts): `fail(field, msg)`
-- throws on the FIRST violated field.
-- ─────────────────────────────────────────────────────────────

def validateContactCategory (input : Json) : Except String ContactCategory :=
  if !(isObjJ input) then .error "ContactCategory: must be object"
  else if !(isUUIDo (input.get? "id")) then .error "id: invalid UUID"
  else if !(isNonEmptyStrO (input.get? "name")) then .error "name: non-empty string"
  else if !(isNonEmptyStrO (input.get? "color")) then .error "color: non-empty string"
  else if !(isStrArrayO (input.get? "tags")) then .error "tags: string[]"
  else if !(isISODateTimeO (input.get? "created_at")) then .error "created_at: ISO datetime"
  else if !(isISODateTimeO (input.get? "updated_at")) then .error "updated_at: ISO datetime"
  else
    .ok { id := strO (input.get? "id"),
          name := (strO (input.get? "name")).jsTrim,
          color := (strO (input.get? "color")).jsTrim,
          tags := strArrO (input.get? "tags"),
          created_at := strO (input.get? "created_at"),
          updated_at := strO (input.get? "updated_at") }

def validateContact (input : Json) : Except String Contact :=
  if !(isObjJ input) then .error "Contact: must be object"
  else if !(isUUIDo (input.get? "id")) then .error "id: invalid UUID"
  else if !(isUUIDo (input.get? "category_id")) then .error "category_id: invalid UUID"
  else if !(isStrO (input.get? "organization")) then .error "organization: string"
  else if !(isStrO (input.get? "contact_name")) then .error "contact_name: string"
  else if !(isStrO (input.get? "role")) then .error "role: string"
  else if !(isStrO (input.get? "phone")) then .error "phone: string"
  else if !(isStrO (input.get? "email")) then .error "email: string"
  else if !(isStrO (input.get? "mailing_address")) then .error "mailing_address: string"
  else if !(isStrO (input.get? "website_url")) then .error "website_url: string"
  else if !(enumIncludesO PREFERRED_METHOD (input.get? "preferred_method")) then
    .error ("preferred_method: one of " ++ String.intercalate "," PREFERRED_METHOD)
  else if !(isStrArrayO (input.get? "tags")) then .error "tags: string[]"
  else if !(isISODateTimeO (input.get? "created_at")) then .error "created_at: ISO datetime"
  else if !(isISODateTimeO (input.get? "updated_at")) then .error "updated_at: ISO datetime"
  else
    .ok { id := strO (input.get? "id"),
          category_id := strO (input.get? "category_id"),
          organization := strO (input.get? "organization"),
          contact_name := strO (input.get? "contact_name"),
          role := strO (input.get? "role"),
          phone := strO (input.get? "phone"),
          email := strO (input.get? "email"),
          mailing_address := strO (input.get? "mailing_address"),
          website_url := strO (input.get? "website_url"),
          preferred_method := strO (input.get? "preferred_method"),
          tags := strArrO (input.get? "tags"),
          created_at := strO (input.get? "created_at"),
          updated_at := strO (input.get? "updated_at") }

def validateOutreachAction (input : Json) : Except String OutreachAction :=
  if !(isObjJ input) then .error "OutreachAction: must be object"
  else if !(isUUIDo (input.get? "id")) then .error "id: invalid UUID"
  else if !(isUUIDo (input.get? "contact_id")) then .error "contact_id: invalid UUID"
  else if !(isISODateTimeO (input.get? "date")) then .error "date: ISO datetime"
  else if !(enumIncludesO OUTREACH_METHOD (input.get? "method")) then
    .error ("method: one of " ++ String.intercalate "," OUTREACH_METHOD)
  else if !(isStrO (input.get? "summary")) then .error "summary: string"
  else if !(isUUIDArrayO (input.get? "artifacts_sent")) then .error "artifacts_sent: UUID[]"
  else if !(isNullO (input.get? "linked_artifact_version") ||
            isUUIDo (input.get? "linked_artifact_version")) then
    .error "linked_artifact_version: UUID or null"
  else if !(enumIncludesO OUTREACH_OUTCOME (input.get? "outcome_status")) then
    .error ("outcome_status: one of " ++ String.intercalate "," OUTREACH_OUTCOME)
  else if !(isNullO (input.get? "next_follow_up_date") ||
            isISODateO (input.get? "next_follow_up_date")) then
    .error "next_follow_up_date: ISO date or null"
  else if !(isISODateTimeO (input.get? "created_at")) then .error "created_at: ISO datetime"
  else
    .ok { id := strO (input.get? "id"),
          contact_id := strO (input.get? "contact_id"),
          date := strO (input.get? "date"),
          method := strO (input.get? "method"),
          summary := strO (input.get? "summary"),
          artifacts_sent := strArrO (input.get? "artifacts_sent"),
          linked_artifact_version := optStrO (input.get? "linked_artifact_version"),
          outcome_status := strO (input.get? "outcome_status"),
          next_follow_up_date := optStrO (input.get? "next_follow_up_date"),
          created_at := strO (input.get? "created_at") }

def validateFollowUpItem (input : Json) : Except String FollowUpItem :=
  if !(isObjJ input) then .error "FollowUpItem: must be object"
  else if !(isUUIDo (input.get? "id")) then .error "id: invalid UUID"
  else if !(isUUIDo (input.get? "contact_id")) then .error "contact_id: invalid UUID"
  else if !(isNullO (input.get? "outreach_action_id") ||
            isUUIDo (input.get? "outreach_action_id")) then
    .error "outreach_action_id: UUID or null"
  else if !(isISODateO (input.get? "due_date")) then .error "due_date: ISO date"
  else if !(enumIncludesO FOLLOW_UP_STATUS (input.get? "status")) then
    .error ("status: one of " ++ String.intercalate "," FOLLOW_UP_STATUS)
  else if !(isStrO (input.get? "notes")) then .error "notes: string"
  else if !(isISODateTimeO (input.get? "created_at")) then .error "created_at: ISO datetime"
  else
    .ok { id := strO (input.get? "id"),
          contact_id := strO (input.get? "contact_id"),
          outreach_action_id := optStrO (input.get? "outreach_action_id"),
          due_date := strO (input.get? "due_date"),
          status := strO (input.get? "status"),
          notes := strO (input.get? "notes"),
          created_at := strO (input.get? "created_at") }

def validateOutcomeRecord (input : Json) : Except String OutcomeRecord :=
  if !(isObjJ input) then .error "OutcomeRecord: must be object"
  else if !(isUUIDo (input.get? "id")) then .error "id: invalid UUID"
  else if !(isUUIDo (input.get? "contact_id")) then .error "contact_id: invalid UUID"
  else if !(enumIncludesO OUTCOME_FINAL (input.get? "final_status")) then
    .error ("final_status: one of " ++ String.intercalate "," OUTCOME_FINAL)
  else if !(isISODateO (input.get? "date_closed")) then .error "date_closed: ISO date"
  else if !(isStrO (input.get? "reason")) then .error "reason: string"
  else if !(isStrO (input.get? "lesson_learned")) then .error "lesson_learned: string"
  else if !(isNullO (input.get? "referred_contact_id") ||
            isUUIDo (input.get? "referred_contact_id")) then
    .error "referred_contact_id: UUID or null"
  else if !(isISODateTimeO (input.get? "created_at")) then .error "created_at: ISO datetime"
  else
    .ok { id := strO (input.get? "id"),
          contact_id := strO (input.get? "contact_id"),
          final_status := strO (input.get? "final_status"),
          date_closed := strO (input.get? "date_closed"),
          reason := strO (input.get? "reason"),
          lesson_learned := strO (input.get? "lesson_learned"),
          referred_contact_id := optStrO (input.get? "referred_contact_id"),
          created_at := strO (input.get? "created_at") }

-- ─────────────────────────────────────────────────────────────
-- Runtime-object encodings of entities (the JSON serialization shape,
-- and the shape an in-memory record presents to a validator call)
-- ─────────────────────────────────────────────────────────────

def jOfOpt : Option String → Json
  | none => .jnull
  | some s => .jstr s

def projectJson (p : Project) : Json :=
  .jobj [("id", .jstr p.id), ("name", .jstr p.name), ("description", .jstr p.description),
         ("status", .jstr p.status), ("start_date", .jstr p.start_date),
         ("target_end_date", .jstr p.target_end_date), ("color", .jstr p.color),
         ("created_at", .jstr p.created_at), ("updated_at", .jstr p.updated_at)]

def checklistItemJson (c : ChecklistItem) : Json :=
  .jobj [("id", .jstr c.id), ("label", .jstr c.label), ("checked", .jbool c.checked)]

def planItemJson (pi : PlanItem) : Json :=
  .jobj [("id", .jstr pi.id), ("project_id", .jstr pi.project_id),
         ("title", .jstr pi.title), ("description", .jstr pi.description),
         ("category", .jstr pi.category), ("status", .jstr pi.status),
         ("due_date", jOfOpt pi.due_date), ("priority", .jstr pi.priority),
         ("checklist", .jarr (pi.checklist.map checklistItemJson)),
         ("notes", .jstr pi.notes), ("created_at", .jstr pi.created_at),
         ("updated_at", .jstr pi.updated_at)]

def contactCategoryJson (c : ContactCategory) : Json :=
  .jobj [("id", .jstr c.id), ("name", .jstr c.name), ("color", .jstr c.color),
         ("tags", .jarr (c.tags.map Json.jstr)),
         ("created_at", .jstr c.created_at), ("updated_at", .jstr c.updated_at)]

def contactJson (c : Contact) : Json :=
  .jobj [("id", .jstr c.id), ("category_id", .jstr c.category_id),
         ("organization", .jstr c.organization), ("contact_name", .jstr c.contact_name),
         ("role", .jstr c.role), ("phone", .jstr c.phone), ("email", .jstr c.email),
         ("mailing_address", .jstr c.mailing_address),
         ("website_url", .jstr c.website_url),
         ("preferred_method", .jstr c.preferred_method),
         ("tags", .jarr (c.tags.map Json.jstr)),
         ("created_at", .jstr c.created_at), ("updated_at", .jstr c.updated_at)]

def outreachActionJson (a : OutreachAction) : Json :=
  .jobj [("id", .jstr a.id), ("contact_id", .jstr a.contact_id),
         ("date", .jstr a.date), ("method", .jstr a.method),
         ("summary", .jstr a.summary),
         ("artifacts_sent", .jarr (a.artifacts_sent.map Json.jstr)),
         ("linked_artifact_version", jOfOpt a.linked_artifact_version),
         ("outcome_status", .jstr a.outcome_status),
         ("next_follow_up_date", jOfOpt a.next_follow_up_date),
         ("created_at", .jstr a.created_at)]

def followUpItemJson (f : FollowUpItem) : Json :=
  .jobj [("id", .jstr f.id), ("contact_id", .jstr f.contact_id),
         ("outreach_action_id", jOfOpt f.outreach_action_id),
         ("due_date", .jstr f.due_date), ("status", .jstr f.status),
         ("notes", .jstr f.notes), ("created_at", .jstr f.created_at)]

def outcomeRecordJson (o : OutcomeRecord) : Json :=
  .jobj [("id", .jstr o.id), ("contact_id", .jstr o.contact_id),
         ("final_status", .jstr o.final_status), ("date_closed", .jstr o.date_closed),
         ("reason", .jstr o.reason), ("lesson_learned", .jstr o.lesson_learned),
         ("referred_contact_id", jOfOpt o.referred_contact_id),
         ("created_at", .jstr o.created_at)]

-- ─────────────────────────────────────────────────────────────
-- Shared list helpers: in-place mutation of the record found by
-- `find`, and `splice` at the index found by `findIndex`, both act
-- on the FIRST element with the matching id.
-- ─────────────────────────────────────────────────────────────

def replaceFirstBy {α : Type} (key : α → String) : List α → String → α → List α
  | [], _, _ => []
  | x :: rest, id, q => if key x == id then q :: rest else x :: replaceFirstBy key rest id q

def removeFirstBy {α : Type} (key : α → String) : List α → String → List α
  | [], _ => []
  | x :: rest, id => if key x == id then rest else x :: removeFirstBy key rest id

/-- JS truthiness of a string-or-null-or-undefined value: truthy iff a
non-empty string. -/
def truthyStr : Option String → Bool
  | some s => s ≠ ""
  | none => false

/-- Lexicographic comparison of character lists: the JS `<` on strings
(code-unit order; these date strings are ASCII). -/
def lexLt : List Char → List Char → Bool
  | [], [] => false
  | [], _ :: _ => true
  | _ :: _, [] => false
  | a :: as, b :: bs => if a < b then true else if b < a then false else lexLt as bs

/-- JS `a < b` on strings. -/
def jsLtStr (a b : String) : Bool := lexLt a.data b.data

/-- JS `a <= b` on strings, spelled from `<` and equality. -/
def jsLeStr (a b : String) : Bool := jsLtStr a b || a == b

-- ─────────────────────────────────────────────────────────────
-- Master-plan service (masterPlanService.ts)
-- ─────────────────────────────────────────────────────────────

/-- In-memory store with the injected id generator and clock, each
modelled as a stream plus a call counter. -/
structure MasterPlanData where
  projects : List Project
  planItems : List PlanItem
  uuidGen : Nat → String
  uuidCtr : Nat
  clockGen : Nat → String
  clockCtr : Nat

/-- One `data.uuid()` call. -/
def MasterPlanData.freshUuid (d : MasterPlanData) : String × MasterPlanData :=
  (d.uuidGen d.uuidCtr, { d with uuidCtr := d.uuidCtr + 1 })

/-- One `data.now()` call. -/
def MasterPlanData.tickNow (d : MasterPlanData) : String × MasterPlanData :=
  (d.clockGen d.clockCtr, { d with clockCtr := d.clockCtr + 1 })

inductive MPPayload where
  | proj (p : Project)
  | item (pi : PlanItem)
  | check (c : ChecklistItem)
deriving Repr, DecidableEq

structure MPAuditEvent where
  entity_type : String
  change_type : String
  entity_id : String
  project_id : Option String
  before : Option MPPayload
  after : Option MPPayload
  detail : Option String
deriving Repr, DecidableEq

/-- Result of one service call: the returned value or thrown error, the
store afterwards, the number of `persist()` invocations and the audit
events emitted (as issued when the optional hooks are attached). -/
structure MPOutcome (α : Type) where
  result : Except String α
  state : MasterPlanData
  persists : Nat
  audits : List MPAuditEvent

/-- `Partial<Omit<Project, 'id' | 'created_at'>>`; `updated_at` is
admitted by the type but never read by the operation. -/
structure ProjectChanges where
  name : Option String
  description : Option String
  status : Option String
  start_date : Option String
  target_end_date : Option String
  color : Option String
  updated_at : Option String
deriving Repr, DecidableEq

def emptyProjectChanges : ProjectChanges := ⟨none, none, none, none, none, none, none⟩

/-- The six `if (changes.x !== undefined)` assignments of `updateProject`. -/
def applyProjectChanges (p : Project) (ch : ProjectChanges) : Project :=
  { p with
    name := match ch.name with | some v => v.jsTrim | none => p.name,
    description := match ch.description with | some v => v.jsTrim | none => p.description,
    status := ch.status.getD p.status,
    start_date := ch.start_date.getD p.start_date,
    target_end_date := ch.target_end_date.getD p.target_end_date,
    color := ch.color.getD p.color }

def updateProject (d : MasterPlanData) (id : String) (ch : ProjectChanges) :
    MPOutcome (Option Project) :=
  match d.projects.find? (fun p => p.id == id) with
  | none => ⟨.ok none, d, 0, []⟩
  | some p =>
    let before := p
    let p1 := applyProjectChanges p ch
    let (t, d1) := d.tickNow
    let p2 := { p1 with updated_at := t }
    let d2 := { d1 with projects := replaceFirstBy Project.id d1.projects id p2 }
    ⟨.ok (some p2), d2, 1,
      [⟨"Project", "Update", p2.id, none, some (.proj before), some (.proj p2), none⟩]⟩

def deleteProject (d : MasterPlanData) (id : String) : MPOutcome Bool :=
  match d.projects.find? (fun p => p.id == id) with
  | none => ⟨.ok false, d, 0, []⟩
  | some _ =>
    let removedItems := d.planItems.filter (fun pi => pi.project_id == id)
    let d1 := { d with
      planItems := d.planItems.filter (fun pi => !(pi.project_id == id)),
      projects := removeFirstBy Project.id d.projects id }
    ⟨.ok true, d1, 1,
      ⟨"Project", "Delete", id, none, none, none, none⟩ ::
        removedItems.map (fun pi =>
          ⟨"PlanItem", "Delete", pi.id, some id, some (.item pi), none,
           some "Cascade delete due to project removal"⟩)⟩

structure ChecklistEntryInput where
  label : String
deriving Repr, DecidableEq

/-- `CreatePlanItemInput`.  The TS interface has no `status` key; the
`status` field here models an extra runtime property a dynamic caller may
attach — the operation never reads it. -/
structure CreatePlanItemInput where
  project_id : String
  title : String
  description : String
  category : String
  due_date : Option String
  priority : String
  checklist : Option (List ChecklistEntryInput)
  notes : Option String
  status : Option String
deriving Repr, DecidableEq

/-- `(input.checklist || []).map(c => ({id: data.uuid(), label: c.label.jsTrim(), checked: false}))`. -/
def allocChecklist (d : MasterPlanData) :
    List ChecklistEntryInput → List ChecklistItem × MasterPlanData
  | [] => ([], d)
  | c :: rest =>
    let (cid, d1) := d.freshUuid
    let (cs, d2) := allocChecklist d1 rest
    (⟨cid, c.label.jsTrim, false⟩ :: cs, d2)

def createPlanItem (d : MasterPlanData) (input : CreatePlanItemInput) : MPOutcome PlanItem :=
  if !(d.projects.any (fun p => p.id == input.project_id)) then
    ⟨.error "Project not found", d, 0, []⟩
  else
    let (iid, d1) := d.freshUuid
    let (checks, d2) := allocChecklist d1 (input.checklist.getD [])
    let (t1, d3) := d2.tickNow
    let (t2, d4) := d3.tickNow
    let item : PlanItem :=
      { id := iid, project_id := input.project_id, title := input.title.jsTrim,
        description := input.description.jsTrim, category := input.category,
        status := "NotStarted", due_date := input.due_date, priority := input.priority,
        checklist := checks,
        notes := match input.notes with | some s => s.jsTrim | none => "",
        created_at := t1, updated_at := t2 }
    ⟨.ok item, { d4 with planItems := d4.planItems ++ [item] }, 1,
      [⟨"PlanItem", "Create", item.id, some item.project_id, none, some (.item item), none⟩]⟩

structure ChecklistChangeEntry where
  id : Option String
  label : String
  checked : Option Bool
deriving Repr, DecidableEq

/-- `Partial<Omit<PlanItem, 'id' | 'project_id' | 'created_at' | 'checklist'>>`
plus the loose replacement checklist; `updated_at` is admitted by the type
but never read. -/
structure PlanItemChanges where
  title : Option String
  description : Option String
  category : Option String
  status : Option String
  due_date : Option (Option String)
  priority : Option String
  notes : Option String
  checklist : Option (List ChecklistChangeEntry)
  updated_at : Option String
deriving Repr, DecidableEq

def emptyPlanItemChanges : PlanItemChanges :=
  ⟨none, none, none, none, none, none, none, none, none⟩

/-- Whole-array checklist replacement: `item.id || data.uuid()` (a missing
or empty id gets a fresh one), `item.checked ?? false`. -/
def reissueChecklist (d : MasterPlanData) :
    List ChecklistChangeEntry → List ChecklistItem × MasterPlanData
  | [] => ([], d)
  | e :: rest =>
    let (cid, d1) :=
      match e.id with
      | some s => if s ≠ "" then (s, d) else d.freshUuid
      | none => d.freshUuid
    let (cs, d2) := reissueChecklist d1 rest
    (⟨cid, e.label.jsTrim, e.checked.getD false⟩ :: cs, d2)

/-- The seven scalar `if (changes.x !== undefined)` assignments of
`updatePlanItem`. -/
def applyPlanItemChanges (pi : PlanItem) (ch : PlanItemChanges) : PlanItem :=
  { pi with
    title := match ch.title with | some v => v.jsTrim | none => pi.title,
    description := match ch.description with | some v => v.jsTrim | none => pi.description,
    category := ch.category.getD pi.category,
    status := ch.status.getD pi.status,
    due_date := ch.due_date.getD pi.due_date,
    priority := ch.priority.getD pi.priority,
    notes := match ch.notes with | some v => v.jsTrim | none => pi.notes }

def updatePlanItem (d : MasterPlanData) (id : String) (ch : PlanItemChanges) :
    MPOutcome (Option PlanItem) :=
  match d.planItems.find? (fun pi => pi.id == id) with
  | none => ⟨.ok none, d, 0, []⟩
  | some pi =>
    let before := pi
    let pi1 := applyPlanItemChanges pi ch
    let (checks, d1) :=
      match ch.checklist with
      | some entries => reissueChecklist d entries
      | none => (pi1.checklist, d)
    let pi2 := { pi1 with checklist := checks }
    let (t, d2) := d1.tickNow
    let pi3 := { pi2 with updated_at := t }
    let d3 := { d2 with planItems := replaceFirstBy PlanItem.id d2.planItems id pi3 }
    ⟨.ok (some pi3), d3, 1,
      [⟨"PlanItem", "Update", pi3.id, some pi3.project_id,
        some (.item before), some (.item pi3), none⟩]⟩

structure PlanItemFilter where
  project_id : Option String
  status : Option (List String)
  category : Option (List String)
  priority : Option (List String)
  due_before : Option String
  due_after : Option String
deriving Repr, DecidableEq

def emptyPlanItemFilter : PlanItemFilter := ⟨none, none, none, none, none, none⟩

/-- The filter predicate of `filterPlanItems`: each branch mirrors one
early `return false`.  Note the truthiness guards: an array predicate
applies whenever present (even empty), a string predicate only when
non-empty, and the due-date bounds test `pi.due_date` for truthiness. -/
def matchesFilter (f : PlanItemFilter) (pi : PlanItem) : Bool :=
  if truthyStr f.project_id && !(pi.project_id == f.project_id.getD "") then false
  else if f.status.isSome && !((f.status.getD []).contains pi.status) then false
  else if f.category.isSome && !((f.category.getD []).contains pi.category) then false
  else if f.priority.isSome && !((f.priority.getD []).contains pi.priority) then false
  else if truthyStr f.due_before && truthyStr pi.due_date &&
          jsLtStr (f.due_before.getD "") (pi.due_date.getD "") then false
  else if truthyStr f.due_after && truthyStr pi.due_date &&
          jsLtStr (pi.due_date.getD "") (f.due_after.getD "") then false
  else true

def filterPlanItems (d : MasterPlanData) (f : PlanItemFilter) : List PlanItem :=
  d.planItems.filter (matchesFilter f)

-- ─────────────────────────────────────────────────────────────
-- Outreach service (outreachService.ts)
-- ─────────────────────────────────────────────────────────────

structure OutreachData where
  categories : List ContactCategory
  contacts : List Contact
  outreachActions : List OutreachAction
  followUps : List FollowUpItem
  outcomes : List OutcomeRecord
  uuidGen : Nat → String
  uuidCtr : Nat
  clockGen : Nat → String
  clockCtr : Nat

def OutreachData.freshUuid (d : OutreachData) : String × OutreachData :=
  (d.uuidGen d.uuidCtr, { d with uuidCtr := d.uuidCtr + 1 })

def OutreachData.tickNow (d : OutreachData) : String × OutreachData :=
  (d.clockGen d.clockCtr, { d with clockCtr := d.clockCtr + 1 })

inductive OPayload where
  | cat (c : ContactCategory)
  | con (c : Contact)
  | act (a : OutreachAction)
  | fup (f : FollowUpItem)
  | out (o : OutcomeRecord)
deriving Repr, DecidableEq

structure OAuditEvent where
  entity_type : String
  change_type : String
  entity_id : String
  before : Option OPayload
  after : Option OPayload
  detail : Option String
deriving Repr, DecidableEq

structure OOutcome (α : Type) where
  result : Except String α
  state : OutreachData
  persists : Nat
  audits : List OAuditEvent

def createCategory (d : OutreachData) (name color : String) (tags : List String) :
    OOutcome ContactCategory :=
  let (cid, d1) := d.freshUuid
  let (t1, d2) := d1.tickNow
  let (t2, d3) := d2.tickNow
  let category : ContactCategory :=
    { id := cid, name := name.jsTrim, color := color.jsTrim,
      tags := tags.map String.jsTrim, created_at := t1, updated_at := t2 }
  match validateContactCategory (contactCategoryJson category) with
  | .error e => ⟨.error e, d3, 0, []⟩
  | .ok v =>
    ⟨.ok category, { d3 with categories := d3.categories ++ [v] }, 1,
      [⟨"ContactCategory", "Create", category.id, none, some (.cat category), none⟩]⟩

/-- `Partial<Omit<ContactCategory, 'id' | 'created_at'>>`; `updated_at` is
admitted by the type but never read. -/
structure CategoryChanges where
  name : Option String
  color : Option String
  tags : Option (List String)
  updated_at : Option String
deriving Repr, DecidableEq

def emptyCategoryChanges : CategoryChanges := ⟨none, none, none, none⟩

/-- The three `if (changes.x !== undefined)` assignments of `updateCategory`. -/
def applyCategoryChanges (cat : ContactCategory) (ch : CategoryChanges) : ContactCategory :=
  { cat with
    name := match ch.name with | some v => v.jsTrim | none => cat.name,
    color := match ch.color with | some v => v.jsTrim | none => cat.color,
    tags := match ch.tags with | some ts => ts.map String.jsTrim | none => cat.tags }

/-- The record found by `find` is mutated field by field IN PLACE, then
`updated_at` is refreshed, and only then is the mutated record validated:
a validation failure aborts persist/audit but the store already holds the
mutated record. -/
def updateCategory (d : OutreachData) (id : String) (ch : CategoryChanges) :
    OOutcome (Option ContactCategory) :=
  match d.categories.find? (fun c => c.id == id) with
  | none => ⟨.ok none, d, 0, []⟩
  | some cat =>
    let cat1 := applyCategoryChanges cat ch
    let (t, d1) := d.tickNow
    let cat2 := { cat1 with updated_at := t }
    let d2 := { d1 with categories := replaceFirstBy ContactCategory.id d1.categories id cat2 }
    match validateContactCategory (contactCategoryJson cat2) with
    | .error e => ⟨.error e, d2, 0, []⟩
    | .ok _ =>
      ⟨.ok (some cat2), d2, 1,
        [⟨"ContactCategory", "Update", cat2.id, none, some (.cat cat2), none⟩]⟩

def deleteCategory (d : OutreachData) (id : String) : OOutcome Bool :=
  match d.categories.find? (fun c => c.id == id) with
  | none => ⟨.ok false, d, 0, []⟩
  | some _ =>
    if d.contacts.any (fun ct => ct.category_id == id) then
      ⟨.error "Cannot delete category with existing contacts", d, 0, []⟩
    else
      ⟨.ok true, { d with categories := removeFirstBy ContactCategory.id d.categories id }, 1,
        [⟨"ContactCategory", "Delete", id, none, none, none⟩]⟩

structure CreateContactInput where
  category_id : String
  organization : String
  contact_name : String
  role : String
  phone : String
  email : String
  mailing_address : String
  website_url : String
  preferred_method : String
  tags : Option (List String)
deriving Repr, DecidableEq

def createContact (d : OutreachData) (input : CreateContactInput) : OOutcome Contact :=
  if !(d.categories.any (fun c => c.id == input.category_id)) then
    ⟨.error "Category not found", d, 0, []⟩
  else
    let (cid, d1) := d.freshUuid
    let (t1, d2) := d1.tickNow
    let (t2, d3) := d2.tickNow
    let contact : Contact :=
      { id := cid, category_id := input.category_id,
        organization := input.organization.jsTrim, contact_name := input.contact_name.jsTrim,
        role := input.role.jsTrim, phone := input.phone.jsTrim, email := input.email.jsTrim,
        mailing_address := input.mailing_address.jsTrim,
        website_url := input.website_url.jsTrim,
        preferred_method := input.preferred_method,
        tags := (input.tags.getD []).map String.jsTrim,
        created_at := t1, updated_at := t2 }
    match validateContact (contactJson contact) with
    | .error e => ⟨.error e, d3, 0, []⟩
    | .ok v =>
      ⟨.ok contact, { d3 with contacts := d3.contacts ++ [v] }, 1,
        [⟨"Contact", "Create", contact.id, none, some (.con contact), none⟩]⟩

/-- `Partial<Omit<Contact, 'id' | 'category_id' | 'created_at'>> & {tags?}`;
`updated_at` is admitted by the type but never read. -/
structure ContactChanges where
  organization : Option String
  contact_name : Option String
  role : Option String
  phone : Option String
  email : Option String
  mailing_address : Option String
  website_url : Option String
  preferred_method : Option String
  tags : Option (List String)
  updated_at : Option String
deriving Repr, DecidableEq

def emptyContactChanges : ContactChanges :=
  ⟨none, none, none, none, none, none, none, none, none, none⟩

def applyContactChanges (ct : Contact) (ch : ContactChanges) : Contact :=
  { ct with
    organization := match ch.organization with | some v => v.jsTrim | none => ct.organization,
    contact_name := match ch.contact_name with | some v => v.jsTrim | none => ct.contact_name,
    role := match ch.role with | some v => v.jsTrim | none => ct.role,
    phone := match ch.phone with | some v => v.jsTrim | none => ct.phone,
    email := match ch.email with | some v => v.jsTrim | none => ct.email,
    mailing_address := match ch.mailing_address with | some v => v.jsTrim | none => ct.mailing_address,
    website_url := match ch.website_url with | some v => v.jsTrim | none => ct.website_url,
    preferred_method := ch.preferred_method.getD ct.preferred_method,
    tags := match ch.tags with | some ts => ts.map String.jsTrim | none => ct.tags }

/-- Like `updateCategory`: in-place mutation first, validation second. -/
def updateContact (d : OutreachData) (id : String) (ch : ContactChanges) :
    OOutcome (Option Contact) :=
  match d.contacts.find? (fun c => c.id == id) with
  | none => ⟨.ok none, d, 0, []⟩
  | some ct =>
    let ct1 := applyContactChanges ct ch
    let (t, d1) := d.tickNow
    let ct2 := { ct1 with updated_at := t }
    let d2 := { d1 with contacts := replaceFirstBy Contact.id d1.contacts id ct2 }
    match validateContact (contactJson ct2) with
    | .error e => ⟨.error e, d2, 0, []⟩
    | .ok _ =>
      ⟨.ok (some ct2), d2, 1,
        [⟨"Contact", "Update", ct2.id, none, some (.con ct2), none⟩]⟩

def deleteContact (d : OutreachData) (id : String) : OOutcome Bool :=
  match d.contacts.find? (fun c => c.id == id) with
  | none => ⟨.ok false, d, 0, []⟩
  | some _ =>
    if d.followUps.any (fun f => f.contact_id == id) ||
       d.outcomes.any (fun o => o.contact_id == id) then
      ⟨.error "Cannot delete contact referenced by follow-ups or outcomes", d, 0, []⟩
    else
      ⟨.ok true,
        { d with
          outreachActions := d.outreachActions.filter (fun a => !(a.contact_id == id)),
          contacts := removeFirstBy Contact.id d.contacts id }, 1,
        [⟨"Contact", "Delete", id, none, none, none⟩]⟩

structure CreateOutreachActionInput where
  contact_id : String
  method : String
  summary : String
  artifacts_sent : Option (List String)
  linked_artifact_version : Option (Option String)
  outcome_status : Option String
  next_follow_up_date : Option (Option String)
deriving Repr, DecidableEq

def recordOutreachAction (d : OutreachData) (input : CreateOutreachActionInput) :
    OOutcome OutreachAction :=
  if !(d.contacts.any (fun c => c.id == input.contact_id)) then
    ⟨.error "Contact not found", d, 0, []⟩
  else
    let (aid, d1) := d.freshUuid
    let (t1, d2) := d1.tickNow
    let (t2, d3) := d2.tickNow
    let action : OutreachAction :=
      { id := aid, contact_id := input.contact_id, date := t1,
        method := input.method, summary := input.summary.jsTrim,
        artifacts_sent := input.artifacts_sent.getD [],
        linked_artifact_version := input.linked_artifact_version.getD none,
        outcome_status := input.outcome_status.getD "None",
        next_follow_up_date := input.next_follow_up_date.getD none,
        created_at := t2 }
    match validateOutreachAction (outreachActionJson action) with
    | .error e => ⟨.error e, d3, 0, []⟩
    | .ok v =>
      ⟨.ok action, { d3 with outreachActions := d3.outreachActions ++ [v] }, 1,
        [⟨"OutreachAction", "Create", action.id, none, some (.act action), none⟩]⟩

/-- `Partial<Omit<OutreachAction, 'id' | 'contact_id' | 'created_at'>>`;
`date` is admitted by the type but never read. -/
structure ActionChanges where
  date : Option String
  method : Option String
  summary : Option String
  artifacts_sent : Option (List String)
  linked_artifact_version : Option (Option String)
  outcome_status : Option String
  next_follow_up_date : Option (Option String)
deriving Repr, DecidableEq

def emptyActionChanges : ActionChanges := ⟨none, none, none, none, none, none, none⟩

def applyActionChanges (act : OutreachAction) (ch : ActionChanges) : OutreachAction :=
  { act with
    method := ch.method.getD act.method,
    summary := match ch.summary with | some v => v.jsTrim | none => act.summary,
    artifacts_sent := ch.artifacts_sent.getD act.artifacts_sent,
    linked_artifact_version := ch.linked_artifact_version.getD act.linked_artifact_version,
    outcome_status := ch.outcome_status.getD act.outcome_status,
    next_follow_up_date := ch.next_follow_up_date.getD act.next_follow_up_date }

/-- Like `updateCategory`: in-place mutation first, validation second
(no `updated_at` on this entity, so no clock call). -/
def updateOutreachAction (d : OutreachData) (id : String) (ch : ActionChanges) :
    OOutcome (Option OutreachAction) :=
  match d.outreachActions.find? (fun a => a.id == id) with
  | none => ⟨.ok none, d, 0, []⟩
  | some act =>
    let act1 := applyActionChanges act ch
    let d1 := { d with outreachActions := replaceFirstBy OutreachAction.id d.outreachActions id act1 }
    match validateOutreachAction (outreachActionJson act1) with
    | .error e => ⟨.error e, d1, 0, []⟩
    | .ok _ =>
      ⟨.ok (some act1), d1, 1,
        [⟨"OutreachAction", "Update", act1.id, none, some (.act act1), none⟩]⟩

def createFollowUp (d : OutreachData) (contact_id : String)
    (outreach_action_id : Option String) (due_date : String) (notes : String) :
    OOutcome FollowUpItem :=
  if !(d.contacts.any (fun c => c.id == contact_id)) then
    ⟨.error "Contact not found", d, 0, []⟩
  else if truthyStr outreach_action_id &&
          !(d.outreachActions.any (fun a => a.id == outreach_action_id.getD "")) then
    ⟨.error "Outreach action not found", d, 0, []⟩
  else
    let (fid, d1) := d.freshUuid
    let (t1, d2) := d1.tickNow
    let fu : FollowUpItem :=
      { id := fid, contact_id := contact_id, outreach_action_id := outreach_action_id,
        due_date := due_date, status := "Open", notes := notes.jsTrim, created_at := t1 }
    match validateFollowUpItem (followUpItemJson fu) with
    | .error e => ⟨.error e, d2, 0, []⟩
    | .ok v =>
      ⟨.ok fu, { d2 with followUps := d2.followUps ++ [v] }, 1,
        [⟨"FollowUpItem", "Create", fu.id, none, some (.fup fu), none⟩]⟩

/-- `fu.status = status` happens before validation, like the other
outreach updates. -/
def updateFollowUpStatus (d : OutreachData) (id : String) (status : String) :
    OOutcome (Option FollowUpItem) :=
  match d.followUps.find? (fun f => f.id == id) with
  | none => ⟨.ok none, d, 0, []⟩
  | some fu =>
    let fu1 := { fu with status := status }
    let d1 := { d with followUps := replaceFirstBy FollowUpItem.id d.followUps id fu1 }
    match validateFollowUpItem (followUpItemJson fu1) with
    | .error e => ⟨.error e, d1, 0, []⟩
    | .ok _ =>
      ⟨.ok (some fu1), d1, 1,
        [⟨"FollowUpItem", "Update", fu1.id, none, some (.fup fu1), none⟩]⟩

structure CreateOutcomeInput where
  contact_id : String
  final_status : String
  date_closed : String
  reason : String
  lesson_learned : String
  referred_contact_id : Option (Option String)
deriving Repr, DecidableEq

def recordOutcome (d : OutreachData) (input : CreateOutcomeInput) : OOutcome OutcomeRecord :=
  if !(d.contacts.any (fun c => c.id == input.contact_id)) then
    ⟨.error "Contact not found", d, 0, []⟩
  else if truthyStr (input.referred_contact_id.getD none) &&
          !(d.contacts.any (fun c => c.id == (input.referred_contact_id.getD none).getD "")) then
    ⟨.error "Referred contact not found", d, 0, []⟩
  else
    let (oid, d1) := d.freshUuid
    let (t1, d2) := d1.tickNow
    let outcome : OutcomeRecord :=
      { id := oid, contact_id := input.contact_id, final_status := input.final_status,
        date_closed := input.date_closed, reason := input.reason.jsTrim,
        lesson_learned := input.lesson_learned.jsTrim,
        referred_contact_id := input.referred_contact_id.getD none,
        created_at := t1 }
    match validateOutcomeRecord (outcomeRecordJson outcome) with
    | .error e => ⟨.error e, d2, 0, []⟩
    | .ok v =>
      ⟨.ok outcome, { d2 with outcomes := d2.outcomes ++ [v] }, 1,
        [⟨"OutcomeRecord", "Create", outcome.id, none, some (.out outcome), none⟩]⟩

-- ─────────────────────────────────────────────────────────────
-- Snapshot persistence (masterPlanPersistence.ts / outreachPersistence.ts)
-- ─────────────────────────────────────────────────────────────

/-- Outcome of `fs.readFile` + `JSON.parse` on the snapshot path. -/
inductive FileRead where
  | enoent
  | ioError (msg : String)
  | badSyntax (msg : String)
  | parsed (j : Json)

/-- `if (!parsed || typeof parsed !== 'object') throw ...`: only
null, boolean, number and string roots are rejected — in JS an array
also has `typeof === 'object'`, so it slips past this guard. -/
def rootPassesObjectCheck : Json → Bool
  | .jobj _ => true
  | .jarr _ => true
  | _ => false

structure MasterPlanSnapshot where
  version : Int
  updated_at : String
  projects : List Project
  plan_items : List PlanItem
deriving Repr, DecidableEq

def createEmptySnapshot (nowStr : String) : MasterPlanSnapshot :=
  { version := 1, updated_at := nowStr, projects := [], plan_items := [] }

/-- `raw.map((x, idx) => { try ... catch e { throw CollName[idx] invalid }})`:
the first element whose validation throws aborts the whole map, with the
index recorded in the message. -/
def mapValidateIdx {α : Type} (collName : String) (vf : Json → Except String α)
    (idx : Nat) : List Json → Except String (List α)
  | [] => .ok []
  | x :: rest =>
    match vf x with
    | .error e => .error (collName ++ "[" ++ toString idx ++ "] invalid: " ++ e)
    | .ok v =>
      match mapValidateIdx collName vf (idx + 1) rest with
      | .error e => .error e
      | .ok vs => .ok (v :: vs)

/-- `loadSnapshot`: a missing file yields the empty container; every other
error escapes the try block and is rethrown with the generic prefix.
`nowStr` stands for `new Date().toISOString()`, the ambient system clock
used for defaulted timestamps. -/
def loadSnapshot (file : FileRead) (nowStr : String) : Except String MasterPlanSnapshot :=
  match file with
  | .enoent => .ok (createEmptySnapshot nowStr)
  | .ioError msg => .error ("Failed to load snapshot: " ++ msg)
  | .badSyntax msg => .error ("Failed to load snapshot: " ++ msg)
  | .parsed j =>
    if !(rootPassesObjectCheck j) then
      .error "Failed to load snapshot: Snapshot root not an object"
    else
      let version : Int := match j.get? "version" with | some (.jnum n) => n | _ => 1
      let updated_at := match j.get? "updated_at" with | some (.jstr s) => s | _ => nowStr
      let projectsRaw := match j.get? "projects" with | some (.jarr xs) => xs | _ => []
      let planItemsRaw := match j.get? "plan_items" with | some (.jarr xs) => xs | _ => []
      match mapValidateIdx "Project" validateProject 0 projectsRaw with
      | .error e => .error ("Failed to load snapshot: " ++ e)
      | .ok projects =>
        match mapValidateIdx "PlanItem" validatePlanItem 0 planItemsRaw with
        | .error e => .error ("Failed to load snapshot: " ++ e)
        | .ok plan_items => .ok ⟨version, updated_at, projects, plan_items⟩

def snapshotJson (s : MasterPlanSnapshot) : Json :=
  .jobj [("version", .jnum s.version), ("updated_at", .jstr s.updated_at),
         ("projects", .jarr (s.projects.map projectJson)),
         ("plan_items", .jarr (s.plan_items.map planItemJson))]

/-- `saveSnapshot`: stamps `updated_at` with the write-time clock and
serializes; the file then holds exactly this container value. -/
def saveSnapshot (s : MasterPlanSnapshot) (nowStr : String) : Json :=
  snapshotJson { s with updated_at := nowStr }

structure OutreachSnapshot where
  version : Int
  updated_at : String
  categories : List ContactCategory
  contacts : List Contact
  outreach_actions : List OutreachAction
  follow_ups : List FollowUpItem
  outcomes : List OutcomeRecord
deriving Repr, DecidableEq

def emptyOutreachSnapshot (nowStr : String) : OutreachSnapshot :=
  { version := 1, updated_at := nowStr, categories := [], contacts := [],
    outreach_actions := [], follow_ups := [], outcomes := [] }

def loadOutreachSnapshot (file : FileRead) (nowStr : String) :
    Except String OutreachSnapshot :=
  match file with
  | .enoent => .ok (emptyOutreachSnapshot nowStr)
  | .ioError msg => .error ("Failed to load outreach snapshot: " ++ msg)
  | .badSyntax msg => .error ("Failed to load outreach snapshot: " ++ msg)
  | .parsed j =>
    if !(rootPassesObjectCheck j) then
      .error "Failed to load outreach snapshot: Snapshot root invalid"
    else
      let version : Int := match j.get? "version" with | some (.jnum n) => n | _ => 1
      let updated_at := match j.get? "updated_at" with | some (.jstr s) => s | _ => nowStr
      let categoriesRaw := match j.get? "categories" with | some (.jarr xs) => xs | _ => []
      let contactsRaw := match j.get? "contacts" with | some (.jarr xs) => xs | _ => []
      let actionsRaw := match j.get? "outreach_actions" with | some (.jarr xs) => xs | _ => []
      let followUpsRaw := match j.get? "follow_ups" with | some (.jarr xs) => xs | _ => []
      let outcomesRaw := match j.get? "outcomes" with | some (.jarr xs) => xs | _ => []
      match mapValidateIdx "Category" validateContactCategory 0 categoriesRaw with
      | .error e => .error ("Failed to load outreach snapshot: " ++ e)
      | .ok categories =>
        match mapValidateIdx "Contact" validateContact 0 contactsRaw with
        | .error e => .error ("Failed to load outreach snapshot: " ++ e)
        | .ok contacts =>
          match mapValidateIdx "OutreachAction" validateOutreachAction 0 actionsRaw with
          | .error e => .error ("Failed to load outreach snapshot: " ++ e)
          | .ok outreach_actions =>
            match mapValidateIdx "FollowUp" validateFollowUpItem 0 followUpsRaw with
            | .error e => .error ("Failed to load outreach snapshot: " ++ e)
            | .ok follow_ups =>
              match mapValidateIdx "Outcome" validateOutcomeRecord 0 outcomesRaw with
              | .error e => .error ("Failed to load outreach snapshot: " ++ e)
              | .ok outcomes =>
                .ok ⟨version, updated_at, categories, contacts, outreach_actions,
                     follow_ups, outcomes⟩

def outreachSnapshotJson (s : OutreachSnapshot) : Json :=
  .jobj [("version", .jnum s.version), ("updated_at", .jstr s.updated_at),
         ("categories", .jarr (s.categories.map contactCategoryJson)),
         ("contacts", .jarr (s.contacts.map contactJson)),
         ("outreach_actions", .jarr (s.outreach_actions.map outreachActionJson)),
         ("follow_ups", .jarr (s.follow_ups.map followUpItemJson)),
         ("outcomes", .jarr (s.outcomes.map outcomeRecordJson))]

def saveOutreachSnapshot (s : OutreachSnapshot) (nowStr : String) : Json :=
  outreachSnapshotJson { s with updated_at := nowStr }

-- ─────────────────────────────────────────────────────────────
-- Canonical (validator-fixed) records: exactly the records a validator
-- accepts and returns unchanged — every record the services store is of
-- this shape.
-- ─────────────────────────────────────────────────────────────

def trimmed (s : String) : Bool := s.jsTrim == s

def isCanonicalProject (p : Project) : Bool :=
  p.id.length > 0 &&
  p.name.jsTrim ≠ "" && trimmed p.name &&
  trimmed p.description &&
  PROJECT_STATUS.contains p.status &&
  isISODateStr p.start_date && isISODateStr p.target_end_date &&
  p.color.jsTrim ≠ "" && trimmed p.color &&
  isISODateTimeStr p.created_at && isISODateTimeStr p.updated_at

def isCanonicalChecklistItem (c : ChecklistItem) : Bool :=
  c.id.length > 0 && c.label.jsTrim ≠ "" && trimmed c.label

def isCanonicalPlanItem (pi : PlanItem) : Bool :=
  pi.id.length > 0 && pi.project_id.length > 0 &&
  pi.title.jsTrim ≠ "" && trimmed pi.title &&
  trimmed pi.description &&
  PLAN_ITEM_CATEGORY.contains pi.category &&
  PLAN_ITEM_STATUS.contains pi.status &&
  (match pi.due_date with | none => true | some s => isISODateStr s) &&
  PLAN_ITEM_PRIORITY.contains pi.priority &&
  pi.checklist.all isCanonicalChecklistItem &&
  trimmed pi.notes &&
  isISODateTimeStr pi.created_at && isISODateTimeStr pi.updated_at

def isCanonicalContactCategory (c : ContactCategory) : Bool :=
  c.id.length > 0 &&
  c.name.jsTrim ≠ "" && trimmed c.name &&
  c.color.jsTrim ≠ "" && trimmed c.color &&
  isISODateTimeStr c.created_at && isISODateTimeStr c.updated_at

def isCanonicalContact (c : Contact) : Bool :=
  c.id.length > 0 && c.category_id.length > 0 &&
  PREFERRED_METHOD.contains c.preferred_method &&
  isISODateTimeStr c.created_at && isISODateTimeStr c.updated_at

def isCanonicalOutreachAction (a : OutreachAction) : Bool :=
  a.id.length > 0 && a.contact_id.length > 0 &&
  isISODateTimeStr a.date &&
  OUTREACH_METHOD.contains a.method &&
  a.artifacts_sent.all (fun s => s.length > 0) &&
  (match a.linked_artifact_version with | none => true | some s => s.length > 0) &&
  OUTREACH_OUTCOME.contains a.outcome_status &&
  (match a.next_follow_up_date with | none => true | some s => isISODateStr s) &&
  isISODateTimeStr a.created_at

def isCanonicalFollowUpItem (f : FollowUpItem) : Bool :=
  f.id.length > 0 && f.contact_id.length > 0 &&
  (match f.outreach_action_id with | none => true | some s => s.length > 0) &&
  isISODateStr f.due_date &&
  FOLLOW_UP_STATUS.contains f.status &&
  isISODateTimeStr f.created_at

def isCanonicalOutcomeRecord (o : OutcomeRecord) : Bool :=
  o.id.length > 0 && o.contact_id.length > 0 &&
  OUTCOME_FINAL.contains o.final_status &&
  isISODateStr o.date_closed &&
  (match o.referred_contact_id with | none => true | some s => s.length > 0) &&
  isISODateTimeStr o.created_at

-- ─────────────────────────────────────────────────────────────
-- Shared lemmas about first-match list surgery
-- ─────────────────────────────────────────────────────────────

theorem find?_first {α : Type} (key : α → String) (id : String) (l1 l2 : List α) (x : α)
    (hx : key x = id) (hl1 : ∀ y ∈ l1, key y ≠ id) :
    (l1 ++ x :: l2).find? (fun y => key y == id) = some x := by
  induction l1 with
  | nil => simp [List.find?, hx]
  | cons a as ih =>
    have ha : key a ≠ id := hl1 a (by simp)
    simp only [List.cons_append, List.find?]
    rw [show (key a == id) = false by simp [ha]]
    exact ih fun y hy => hl1 y (by simp [hy])

theorem replaceFirstBy_first {α : Type} (key : α → String) (id : String)
    (l1 l2 : List α) (x q : α)
    (hx : key x = id) (hl1 : ∀ y ∈ l1, key y ≠ id) :
    replaceFirstBy key (l1 ++ x :: l2) id q = l1 ++ q :: l2 := by
  induction l1 with
  | nil => simp [replaceFirstBy, hx]
  | cons a as ih =>
    have ha : key a ≠ id := hl1 a (by simp)
    simp only [List.cons_append, replaceFirstBy]
    rw [show (key a == id) = false by simp [ha], if_neg (by simp)]
    simp [ih fun y hy => hl1 y (by simp [hy])]

theorem removeFirstBy_first {α : Type} (key : α → String) (id : String)
    (l1 l2 : List α) (x : α)
    (hx : key x = id) (hl1 : ∀ y ∈ l1, key y ≠ id) :
    removeFirstBy key (l1 ++ x :: l2) id = l1 ++ l2 := by
  induction l1 with
  | nil => simp [removeFirstBy, hx]
  | cons a as ih =>
    have ha : key a ≠ id := hl1 a (by simp)
    simp only [List.cons_append, removeFirstBy]
    rw [show (key a == id) = false by simp [ha], if_neg (by simp)]
    simp [ih fun y hy => hl1 y (by simp [hy])]

-- ─────────────────────────────────────────────────────────────
-- C4: deleteProject cascade
-- ─────────────────────────────────────────────────────────────

/-- C4: when the addressed Project exists, `deleteProject` removes it and
exactly the PlanItems whose `project_id` matches (no other entity changes),
returns true, persists once, and emits one Delete audit event for the
Project followed by one Delete event per cascaded PlanItem tagged with the
cascade reason — N+1 events for N matching items.  When the id is not
found it returns false and changes nothing. -/
theorem c4_deleteProject_cascade
    (d : MasterPlanData) (id : String) (p : Project) (l1 l2 : List Project)
    (hsplit : d.projects = l1 ++ p :: l2) (hp : p.id = id)
    (hl1 : ∀ q ∈ l1, q.id ≠ id) :
    ((deleteProject d id).result = .ok true ∧
     (deleteProject d id).state.projects = l1 ++ l2 ∧
     (deleteProject d id).state.planItems =
       d.planItems.filter (fun pi => !(pi.project_id == id)) ∧
     (deleteProject d id).persists = 1 ∧
     (deleteProject d id).audits =
       ⟨"Project", "Delete", id, none, none, none, none⟩ ::
         (d.planItems.filter (fun pi => pi.project_id == id)).map (fun pi =>
           ⟨"PlanItem", "Delete", pi.id, some id, some (.item pi), none,
            some "Cascade delete due to project removal"⟩) ∧
     (deleteProject d id).audits.length =
       (d.planItems.filter (fun pi => pi.project_id == id)).length + 1) ∧
    (∀ (d' : MasterPlanData) (id' : String),
      (∀ q ∈ d'.projects, q.id ≠ id') →
      (deleteProject d' id').result = .ok false ∧
      (deleteProject d' id').state = d' ∧
      (deleteProject d' id').persists = 0 ∧
      (deleteProject d' id').audits = []) := by
  constructor
  · have hfind : d.projects.find? (fun q => q.id == id) = some p := by
      rw [hsplit]; exact find?_first Project.id id l1 l2 p hp hl1
    unfold deleteProject
    rw [hfind]
    refine ⟨rfl, ?_, rfl, rfl, rfl, by simp⟩
    show removeFirstBy Project.id d.projects id = l1 ++ l2
    rw [hsplit]; exact removeFirstBy_first Project.id id l1 l2 p hp hl1
  · intro d' id' hnone
    have hfind : d'.projects.find? (fun q => q.id == id') = none := by
      apply List.find?_eq_none.mpr
      intro q hq; simp [hnone q hq]
    unfold deleteProject
    rw [hfind]
    exact ⟨rfl, rfl, rfl, rfl⟩

def c4Proj : Project :=
  ⟨"p1", "Test", "Desc", "Active", "2025-11-13", "2025-11-20", "#888888",
   "2025-11-13T00:00:00Z", "2025-11-13T00:00:00Z"⟩

def c4Item (iid pid : String) : PlanItem :=
  ⟨iid, pid, "T", "D", "Admin", "NotStarted", none, "Low", [], "",
   "2025-11-13T00:00:00Z", "2025-11-13T00:00:00Z"⟩

def c4Data : MasterPlanData :=
  ⟨[c4Proj], [c4Item "i1" "p1", c4Item "i2" "p2", c4Item "i3" "p1"],
   fun n => "u" ++ toString n, 0, fun _ => "2025-12-01T00:00:00Z", 0⟩

theorem c4_witness :
    (deleteProject c4Data "p1").result = .ok true ∧
    (deleteProject c4Data "p1").audits.length = 3 ∧
    (deleteProject c4Data "p1").state.planItems = [c4Item "i2" "p2"] := by
  obtain ⟨⟨h1, h2, h3, h4, h5, h6⟩, _⟩ :=
    c4_deleteProject_cascade c4Data "p1" c4Proj [] [] rfl rfl (by simp)
  refine ⟨h1, ?_, ?_⟩
  · rw [h6]; decide
  · rw [h3]; decide

-- ─────────────────────────────────────────────────────────────
-- C10: deleteContact cascades actions but audits only the Contact
-- ─────────────────────────────────────────────────────────────

/-- C10: when the addressed Contact exists and no FollowUpItem or
OutcomeRecord references it, `deleteContact` cascade-deletes all of the
Contact's OutreachActions but emits exactly one audit event — the
Contact's Delete event — with no event for any cascade-deleted
OutreachAction; the other collections are untouched. -/
theorem c10_deleteContact_single_audit
    (d : OutreachData) (id : String) (c : Contact) (l1 l2 : List Contact)
    (hsplit : d.contacts = l1 ++ c :: l2) (hc : c.id = id)
    (hl1 : ∀ y ∈ l1, y.id ≠ id)
    (hfu : ∀ f ∈ d.followUps, f.contact_id ≠ id)
    (hoc : ∀ o ∈ d.outcomes, o.contact_id ≠ id) :
    (deleteContact d id).result = .ok true ∧
    (deleteContact d id).state.contacts = l1 ++ l2 ∧
    (deleteContact d id).state.outreachActions =
      d.outreachActions.filter (fun a => !(a.contact_id == id)) ∧
    (deleteContact d id).state.categories = d.categories ∧
    (deleteContact d id).state.followUps = d.followUps ∧
    (deleteContact d id).state.outcomes = d.outcomes ∧
    (deleteContact d id).persists = 1 ∧
    (deleteContact d id).audits = [⟨"Contact", "Delete", id, none, none, none⟩] ∧
    (deleteContact d id).audits.length = 1 := by
  have hfind : d.contacts.find? (fun y => y.id == id) = some c := by
    rw [hsplit]; exact find?_first Contact.id id l1 l2 c hc hl1
  have hguard : (d.followUps.any (fun f => f.contact_id == id) ||
      d.outcomes.any (fun o => o.contact_id == id)) = false := by
    simp only [Bool.or_eq_false_iff, List.any_eq_false]
    exact ⟨fun f hf => by simp [hfu f hf], fun o ho => by simp [hoc o ho]⟩
  unfold deleteContact
  rw [hfind, hguard]
  refine ⟨rfl, ?_, rfl, rfl, rfl, rfl, rfl, rfl, rfl⟩
  show removeFirstBy Contact.id d.contacts id = l1 ++ l2
  rw [hsplit]; exact removeFirstBy_first Contact.id id l1 l2 c hc hl1

def c10Contact : Contact :=
  ⟨"c1", "k1", "Org", "Alice", "Reporter", "000", "a@b.com", "Street", "http://x",
   "Email", [], "2025-01-01T00:00:00Z", "2025-01-01T00:00:00Z"⟩

def c10Action (aid cid : String) : OutreachAction :=
  ⟨aid, cid, "2025-01-02T00:00:00Z", "Email", "Intro", [], none, "None", none,
   "2025-01-02T00:00:00Z"⟩

def c10Data : OutreachData :=
  ⟨[⟨"k1", "Media", "#f00", [], "2025-01-01T00:00:00Z", "2025-01-01T00:00:00Z"⟩],
   [c10Contact], [c10Action "a1" "c1", c10Action "a2" "c1", c10Action "a3" "c9"],
   [], [], fun n => "u" ++ toString n, 0, fun _ => "2025-12-01T00:00:00Z", 0⟩

theorem c10_witness :
    (deleteContact c10Data "c1").result = .ok true ∧
    (deleteContact c10Data "c1").audits.length = 1 ∧
    (deleteContact c10Data "c1").state.outreachActions = [c10Action "a3" "c9"] := by
  obtain ⟨h1, _, h3, _, _, _, _, _, h9⟩ :=
    c10_deleteContact_single_audit c10Data "c1" c10Contact [] [] rfl rfl
      (by simp) (by simp [c10Data]) (by simp [c10Data])
  refine ⟨h1, h9, ?_⟩
  rw [h3]; decide

-- ─────────────────────────────────────────────────────────────
-- C5: createPlanItem
-- ─────────────────────────────────────────────────────────────

theorem allocChecklist_length (es : List ChecklistEntryInput) (d : MasterPlanData) :
    (allocChecklist d es).1.length = es.length := by
  induction es generalizing d with
  | nil => simp [allocChecklist]
  | cons c rest ih => simp [allocChecklist, MasterPlanData.freshUuid, ih]

theorem allocChecklist_state (es : List ChecklistEntryInput) (d : MasterPlanData) :
    (allocChecklist d es).2 = { d with uuidCtr := d.uuidCtr + es.length } := by
  induction es generalizing d with
  | nil => simp [allocChecklist]
  | cons c rest ih =>
    simp only [allocChecklist, MasterPlanData.freshUuid, List.length_cons]
    rw [ih]
    congr 1
    show d.uuidCtr + 1 + rest.length = d.uuidCtr + (rest.length + 1)
    omega

theorem allocChecklist_get? (es : List ChecklistEntryInput) (d : MasterPlanData)
    (i : Nat) (e : ChecklistEntryInput) (he : es.get? i = some e) :
    (allocChecklist d es).1.get? i =
      some ⟨d.uuidGen (d.uuidCtr + i), e.label.jsTrim, false⟩ := by
  induction es generalizing d i with
  | nil => simp at he
  | cons c rest ih =>
    cases i with
    | zero =>
      simp at he
      simp [allocChecklist, MasterPlanData.freshUuid, he]
    | succ n =>
      simp only [List.get?] at he
      have hrec := ih { d with uuidCtr := d.uuidCtr + 1 } n he
      simp only [allocChecklist, MasterPlanData.freshUuid, List.get?]
      rw [hrec]
      have harith : d.uuidCtr + 1 + n = d.uuidCtr + (n + 1) := by omega
      rw [harith]

/-- C5: `createPlanItem` fails with no mutation when `project_id` does not
reference an existing Project; otherwise the created and stored PlanItem
always has `status = NotStarted` — the `status` property of the input
object, quantified freely here, is never read — and every checklist entry
gets a freshly allocated identifier (consecutive generator calls after the
item's own id) and `checked = false`. -/
theorem c5_createPlanItem_status
    (d : MasterPlanData) (input : CreatePlanItemInput) :
    ((¬ ∃ p ∈ d.projects, p.id = input.project_id) →
      (createPlanItem d input).result = .error "Project not found" ∧
      (createPlanItem d input).state = d ∧
      (createPlanItem d input).persists = 0 ∧
      (createPlanItem d input).audits = []) ∧
    ((∃ p ∈ d.projects, p.id = input.project_id) →
      ∃ item, (createPlanItem d input).result = .ok item ∧
        (createPlanItem d input).state.planItems = d.planItems ++ [item] ∧
        (createPlanItem d input).state.projects = d.projects ∧
        (createPlanItem d input).persists = 1 ∧
        item.status = "NotStarted" ∧
        item.id = d.uuidGen d.uuidCtr ∧
        item.checklist.length = (input.checklist.getD []).length ∧
        (∀ i e, (input.checklist.getD []).get? i = some e →
          item.checklist.get? i =
            some ⟨d.uuidGen (d.uuidCtr + 1 + i), e.label.jsTrim, false⟩)) := by
  constructor
  · intro hno
    have hany : d.projects.any (fun p => p.id == input.project_id) = false := by
      simp only [List.any_eq_false]
      intro p hp
      simp only [beq_iff_eq]
      exact fun hid => hno ⟨p, hp, hid⟩
    unfold createPlanItem
    rw [hany]
    exact ⟨rfl, rfl, rfl, rfl⟩
  · intro hyes
    have hany : d.projects.any (fun p => p.id == input.project_id) = true := by
      rcases hyes with ⟨p, hp, hid⟩
      exact List.any_eq_true.mpr ⟨p, hp, by simp [hid]⟩
    unfold createPlanItem
    rw [hany]
    simp only [MasterPlanData.freshUuid, MasterPlanData.tickNow,
      allocChecklist_state (input.checklist.getD [])]
    refine ⟨_, rfl, rfl, rfl, rfl, rfl, rfl, ?_, ?_⟩
    · exact allocChecklist_length _ _
    · intro i e he
      exact allocChecklist_get? _ _ i e he

def c5Data : MasterPlanData :=
  ⟨[c4Proj], [], fun n => "u" ++ toString n, 0, fun _ => "2025-12-01T00:00:00Z", 0⟩

def c5Input : CreatePlanItemInput :=
  { project_id := "p1", title := "Task", description := "Do", category := "Drafting",
    due_date := some "2025-11-14", priority := "Normal",
    checklist := some [⟨"Step A"⟩, ⟨" Step B "⟩], notes := none,
    status := some "Done" }

theorem c5_witness :
    ∃ item, (createPlanItem c5Data c5Input).result = .ok item ∧
      item.status = "NotStarted" ∧
      item.checklist.get? 1 = some ⟨"u2", "Step B", false⟩ := by
  obtain ⟨item, h1, _, _, _, h5, _, _, h8⟩ :=
    (c5_createPlanItem_status c5Data c5Input).2 ⟨c4Proj, by decide, by decide⟩
  refine ⟨item, h1, h5, ?_⟩
  rw [h8 1 ⟨" Step B "⟩ (by decide)]
  decide

-- ─────────────────────────────────────────────────────────────
-- C8: partial updates touch only supplied fields
-- ─────────────────────────────────────────────────────────────

theorem reissueChecklist_frame (es : List ChecklistChangeEntry) (d : MasterPlanData) :
    (reissueChecklist d es).2.projects = d.projects ∧
    (reissueChecklist d es).2.planItems = d.planItems ∧
    (reissueChecklist d es).2.uuidGen = d.uuidGen ∧
    (reissueChecklist d es).2.clockGen = d.clockGen ∧
    (reissueChecklist d es).2.clockCtr = d.clockCtr := by
  induction es generalizing d with
  | nil => exact ⟨rfl, rfl, rfl, rfl, rfl⟩
  | cons e rest ih =>
    simp only [reissueChecklist]
    cases he : e.id with
    | none => simpa only [MasterPlanData.freshUuid] using ih _
    | some s =>
      by_cases hs : s ≠ ""
      · simpa only [if_pos hs] using ih d
      · simpa only [if_neg hs, MasterPlanData.freshUuid] using ih _

/-- C8: `updateProject` and `updatePlanItem` on an existing record change
only the supplied fields (string fields to their trimmed supplied value),
keep every unsupplied field, never change `id`, `project_id` or
`created_at`, always refresh `updated_at` to the injected clock's value
and leave the other collection untouched; on a missing id they return
null and change nothing. -/
theorem c8_partial_update_frame (d : MasterPlanData) (id : String) :
    (∀ (p : Project) (l1 l2 : List Project) (ch : ProjectChanges),
      d.projects = l1 ++ p :: l2 → p.id = id → (∀ q ∈ l1, q.id ≠ id) →
      ∃ p', (updateProject d id ch).result = .ok (some p') ∧
        (updateProject d id ch).state.projects = l1 ++ p' :: l2 ∧
        (updateProject d id ch).state.planItems = d.planItems ∧
        (updateProject d id ch).persists = 1 ∧
        p'.id = p.id ∧ p'.created_at = p.created_at ∧
        p'.updated_at = d.clockGen d.clockCtr ∧
        p'.name = (match ch.name with | some v => v.jsTrim | none => p.name) ∧
        p'.description =
          (match ch.description with | some v => v.jsTrim | none => p.description) ∧
        p'.status = ch.status.getD p.status ∧
        p'.start_date = ch.start_date.getD p.start_date ∧
        p'.target_end_date = ch.target_end_date.getD p.target_end_date ∧
        p'.color = ch.color.getD p.color) ∧
    (∀ ch : ProjectChanges, (∀ q ∈ d.projects, q.id ≠ id) →
      (updateProject d id ch).result = .ok none ∧
      (updateProject d id ch).state = d ∧
      (updateProject d id ch).persists = 0 ∧
      (updateProject d id ch).audits = []) ∧
    (∀ (pi : PlanItem) (l1 l2 : List PlanItem) (ch : PlanItemChanges),
      d.planItems = l1 ++ pi :: l2 → pi.id = id → (∀ q ∈ l1, q.id ≠ id) →
      ∃ pi', (updatePlanItem d id ch).result = .ok (some pi') ∧
        (updatePlanItem d id ch).state.planItems = l1 ++ pi' :: l2 ∧
        (updatePlanItem d id ch).state.projects = d.projects ∧
        (updatePlanItem d id ch).persists = 1 ∧
        pi'.id = pi.id ∧ pi'.project_id = pi.project_id ∧
        pi'.created_at = pi.created_at ∧
        pi'.updated_at = d.clockGen d.clockCtr ∧
        pi'.title = (match ch.title with | some v => v.jsTrim | none => pi.title) ∧
        pi'.description =
          (match ch.description with | some v => v.jsTrim | none => pi.description) ∧
        pi'.category = ch.category.getD pi.category ∧
        pi'.status = ch.status.getD pi.status ∧
        pi'.due_date = ch.due_date.getD pi.due_date ∧
        pi'.priority = ch.priority.getD pi.priority ∧
        pi'.notes = (match ch.notes with | some v => v.jsTrim | none => pi.notes) ∧
        pi'.checklist =
          (match ch.checklist with
           | some entries => (reissueChecklist d entries).1
           | none => pi.checklist)) ∧
    (∀ ch : PlanItemChanges, (∀ q ∈ d.planItems, q.id ≠ id) →
      (updatePlanItem d id ch).result = .ok none ∧
      (updatePlanItem d id ch).state = d ∧
      (updatePlanItem d id ch).persists = 0 ∧
      (updatePlanItem d id ch).audits = []) := by
  refine ⟨?_, ?_, ?_, ?_⟩
  · intro p l1 l2 ch hsplit hp hl1
    have hfind : d.projects.find? (fun q => q.id == id) = some p := by
      rw [hsplit]; exact find?_first Project.id id l1 l2 p hp hl1
    unfold updateProject
    rw [hfind]
    simp only [MasterPlanData.tickNow]
    refine ⟨_, rfl, ?_, ?_⟩
    · show replaceFirstBy Project.id d.projects id _ = _
      rw [hsplit]
      exact replaceFirstBy_first Project.id id l1 l2 p _ hp hl1
    · and_intros <;> (first | rfl | trivial)
  · intro ch hnone
    have hfind : d.projects.find? (fun q => q.id == id) = none := by
      apply List.find?_eq_none.mpr
      intro q hq; simp [hnone q hq]
    unfold updateProject
    rw [hfind]
    exact ⟨rfl, rfl, rfl, rfl⟩
  · intro pi l1 l2 ch hsplit hp hl1
    have hfind : d.planItems.find? (fun q => q.id == id) = some pi := by
      rw [hsplit]; exact find?_first PlanItem.id id l1 l2 pi hp hl1
    unfold updatePlanItem
    rw [hfind]
    cases hcl : ch.checklist with
    | none =>
      simp only [MasterPlanData.tickNow]
      refine ⟨_, rfl, ?_, ?_⟩
      · show replaceFirstBy PlanItem.id d.planItems id _ = _
        rw [hsplit]
        exact replaceFirstBy_first PlanItem.id id l1 l2 pi _ hp hl1
      · and_intros <;> (first | rfl | trivial)
    | some entries =>
      obtain ⟨hpr, hpl, -, hcg, hcc⟩ := reissueChecklist_frame entries d
      simp only [MasterPlanData.tickNow, hpr, hpl, hcg, hcc]
      refine ⟨_, rfl, ?_, ?_⟩
      · show replaceFirstBy PlanItem.id d.planItems id _ = _
        rw [hsplit]
        exact replaceFirstBy_first PlanItem.id id l1 l2 pi _ hp hl1
      · and_intros <;> (first | rfl | trivial)
  · intro ch hnone
    have hfind : d.planItems.find? (fun q => q.id == id) = none := by
      apply List.find?_eq_none.mpr
      intro q hq; simp [hnone q hq]
    unfold updatePlanItem
    rw [hfind]
    exact ⟨rfl, rfl, rfl, rfl⟩

def c8Data : MasterPlanData :=
  ⟨[c4Proj], [c4Item "i1" "p1"],
   fun n => "u" ++ toString n, 0, fun _ => "2025-12-05T00:00:00Z", 0⟩

theorem c8_witness :
    ∃ p', (updateProject c8Data "p1"
        { emptyProjectChanges with name := some "  New Name  " }).result = .ok (some p') ∧
      p'.name = "New Name" ∧ p'.description = "Desc" ∧
      p'.created_at = "2025-11-13T00:00:00Z" ∧
      p'.updated_at = "2025-12-05T00:00:00Z" := by
  obtain ⟨p', h1, _, _, _, _, h6, h7, h8, h9, _⟩ :=
    (c8_partial_update_frame c8Data "p1").1 c4Proj [] []
      { emptyProjectChanges with name := some "  New Name  " } rfl rfl (by simp)
  exact ⟨p', h1, by rw [h8]; decide, by rw [h9]; decide, by rw [h6]; decide,
    by rw [h7]; decide⟩

-- ─────────────────────────────────────────────────────────────
-- C9: the master-plan updates perform no enum validation
-- ─────────────────────────────────────────────────────────────

/-- C9: `updatePlanItem` stores and returns the supplied `status`
(likewise `category`, `priority`) string exactly, even when it is not one
of the declared enum literals, and `updateProject` does the same for its
`status`: the in-memory store can hold out-of-enum values after a
successful update. -/
theorem c9_update_no_enum_validation (d : MasterPlanData) (id : String) :
    (∀ (pi : PlanItem) (l1 l2 : List PlanItem),
      d.planItems = l1 ++ pi :: l2 → pi.id = id → (∀ q ∈ l1, q.id ≠ id) →
      (∀ s : String, PLAN_ITEM_STATUS.contains s = false →
        ∃ pi', (updatePlanItem d id
            { emptyPlanItemChanges with status := some s }).result = .ok (some pi') ∧
          pi'.status = s ∧
          (updatePlanItem d id
            { emptyPlanItemChanges with status := some s }).state.planItems =
            l1 ++ pi' :: l2) ∧
      (∀ c : String, PLAN_ITEM_CATEGORY.contains c = false →
        ∃ pi', (updatePlanItem d id
            { emptyPlanItemChanges with category := some c }).result = .ok (some pi') ∧
          pi'.category = c ∧
          (updatePlanItem d id
            { emptyPlanItemChanges with category := some c }).state.planItems =
            l1 ++ pi' :: l2) ∧
      (∀ w : String, PLAN_ITEM_PRIORITY.contains w = false →
        ∃ pi', (updatePlanItem d id
            { emptyPlanItemChanges with priority := some w }).result = .ok (some pi') ∧
          pi'.priority = w ∧
          (updatePlanItem d id
            { emptyPlanItemChanges with priority := some w }).state.planItems =
            l1 ++ pi' :: l2)) ∧
    (∀ (p : Project) (l1 l2 : List Project),
      d.projects = l1 ++ p :: l2 → p.id = id → (∀ q ∈ l1, q.id ≠ id) →
      ∀ s : String, PROJECT_STATUS.contains s = false →
        ∃ p', (updateProject d id
            { emptyProjectChanges with status := some s }).result = .ok (some p') ∧
          p'.status = s ∧
          (updateProject d id
            { emptyProjectChanges with status := some s }).state.projects =
            l1 ++ p' :: l2) := by
  constructor
  · intro pi l1 l2 hsplit hp hl1
    have hfind : d.planItems.find? (fun q => q.id == id) = some pi := by
      rw [hsplit]; exact find?_first PlanItem.id id l1 l2 pi hp hl1
    refine ⟨?_, ?_, ?_⟩ <;>
      · intro s _
        unfold updatePlanItem
        rw [hfind]
        simp only [MasterPlanData.tickNow]
        refine ⟨_, rfl, rfl, ?_⟩
        show replaceFirstBy PlanItem.id d.planItems id _ = _
        rw [hsplit]
        exact replaceFirstBy_first PlanItem.id id l1 l2 pi _ hp hl1
  · intro p l1 l2 hsplit hp hl1 s _
    have hfind : d.projects.find? (fun q => q.id == id) = some p := by
      rw [hsplit]; exact find?_first Project.id id l1 l2 p hp hl1
    unfold updateProject
    rw [hfind]
    simp only [MasterPlanData.tickNow]
    refine ⟨_, rfl, rfl, ?_⟩
    show replaceFirstBy Project.id d.projects id _ = _
    rw [hsplit]
    exact replaceFirstBy_first Project.id id l1 l2 p _ hp hl1

theorem c9_witness :
    ∃ pi', (updatePlanItem c8Data "i1"
        { emptyPlanItemChanges with status := some "Bogus" }).result = .ok (some pi') ∧
      pi'.status = "Bogus" := by
  obtain ⟨hitem, -⟩ :=
    c9_update_no_enum_validation c8Data "i1"
  obtain ⟨hstat, -, -⟩ := hitem (c4Item "i1" "p1") [] [] rfl rfl (by simp)
  obtain ⟨pi', h1, h2, -⟩ := hstat "Bogus" (by decide)
  exact ⟨pi', h1, h2⟩

-- ─────────────────────────────────────────────────────────────
-- C3: filterPlanItems and null due dates
-- ─────────────────────────────────────────────────────────────

theorem lexLt_total (as bs : List Char) : (!(lexLt bs as)) = (lexLt as bs || as == bs) := by
  induction as generalizing bs with
  | nil => cases bs <;> rfl
  | cons a as ih =>
    cases bs with
    | nil => rfl
    | cons b bs =>
      have hcons : ((a :: as : List Char) == b :: bs) = (a == b && as == bs) := rfl
      by_cases hba : b < a
      · have hab : ¬ a < b := asymm hba
        have hne : a ≠ b := ne_of_gt hba
        simp [lexLt, hba, hab, hcons, hne]
      · by_cases hab : a < b
        · simp [lexLt, hba, hab]
        · have heq : a = b := le_antisymm (not_lt.mp hba) (not_lt.mp hab)
          subst heq
          simp [lexLt, hcons, ih bs]

theorem jsLtStr_total (a b : String) : (!(jsLtStr b a)) = jsLeStr a b := by
  unfold jsLtStr jsLeStr
  rw [lexLt_total]
  have hdata : (a.data == b.data) = (a == b) := by
    by_cases h : a = b
    · subst h; simp
    · have hd : a.data ≠ b.data := fun hh => h (by cases a; cases b; cases hh; rfl)
      simp [h, hd]
  rw [hdata]
  rfl

/-- The filter predicate as the (amended) spec reads: each predicate
applies only when its filter field is present (a string predicate only
when non-empty); both due-date bounds are inclusive (`≤`); a PlanItem
whose due date is null — or the empty string — passes both due-date bound
predicates (it is NOT excluded). -/
def specFilterPred (f : PlanItemFilter) (pi : PlanItem) : Bool :=
  (match f.project_id with
   | some pid => pid == "" || pi.project_id == pid
   | none => true) &&
  (match f.status with | some xs => xs.contains pi.status | none => true) &&
  (match f.category with | some xs => xs.contains pi.category | none => true) &&
  (match f.priority with | some xs => xs.contains pi.priority | none => true) &&
  (match f.due_before, pi.due_date with
   | some b, some dd => b == "" || dd == "" || jsLeStr dd b
   | _, _ => true) &&
  (match f.due_after, pi.due_date with
   | some a, some dd => a == "" || dd == "" || jsLeStr a dd
   | _, _ => true)

theorem if_false_chain (c r : Bool) : (if c = true then false else r) = (!c && r) := by
  cases c <;> simp

/-- C3 (amended): `filterPlanItems` filters by exactly the spec-side
predicate above — in particular a PlanItem with a null due date passes
the due-date bound predicates and is therefore INCLUDED (not excluded)
when a `due_before`/`due_after` bound is given, and both bounds are
inclusive. -/
theorem c3_filter_due_date_semantics (d : MasterPlanData) (f : PlanItemFilter) :
    filterPlanItems d f = d.planItems.filter (specFilterPred f) := by
  unfold filterPlanItems
  apply List.filter_congr
  intro pi _
  show matchesFilter f pi = specFilterPred f pi
  unfold matchesFilter specFilterPred
  simp only [if_false_chain, Bool.and_true]
  have h1 : (!(truthyStr f.project_id && !(pi.project_id == f.project_id.getD ""))) =
      (match f.project_id with
       | some pid => pid == "" || pi.project_id == pid
       | none => true) := by
    cases f.project_id with
    | none => rfl
    | some s =>
      by_cases hs : s = ""
      · subst hs; simp [truthyStr]
      · simp [truthyStr, hs]
  have h2 : ∀ (o : Option (List String)) (v : String),
      (!(o.isSome && !((o.getD []).contains v))) =
      (match o with | some xs => xs.contains v | none => true) := by
    intro o v
    cases o with
    | none => rfl
    | some xs => simp
  have h5 : (!(truthyStr f.due_before && truthyStr pi.due_date &&
        jsLtStr (f.due_before.getD "") (pi.due_date.getD ""))) =
      (match f.due_before, pi.due_date with
       | some b, some dd => b == "" || dd == "" || jsLeStr dd b
       | _, _ => true) := by
    cases f.due_before with
    | none => rfl
    | some b =>
      cases pi.due_date with
      | none => simp [truthyStr]
      | some dd =>
        by_cases hb : b = ""
        · subst hb; simp [truthyStr]
        · by_cases hdd : dd = ""
          · subst hdd; simp [truthyStr]
          · simp [truthyStr, hb, hdd, ← jsLtStr_total]
  have h6 : (!(truthyStr f.due_after && truthyStr pi.due_date &&
        jsLtStr (pi.due_date.getD "") (f.due_after.getD ""))) =
      (match f.due_after, pi.due_date with
       | some a, some dd => a == "" || dd == "" || jsLeStr a dd
       | _, _ => true) := by
    cases f.due_after with
    | none => rfl
    | some a =>
      cases pi.due_date with
      | none => simp [truthyStr]
      | some dd =>
        by_cases ha : a = ""
        · subst ha; simp [truthyStr]
        · by_cases hdd : dd = ""
          · subst hdd; simp [truthyStr]
          · simp [truthyStr, ha, hdd, ← jsLtStr_total]
  rw [h1, h2 f.status pi.status, h2 f.category pi.category, h2 f.priority pi.priority, h5, h6]
  simp [Bool.and_assoc]

def c3Data : MasterPlanData :=
  ⟨[], [c4Item "i1" "p1"],
   fun n => "u" ++ toString n, 0, fun _ => "2025-12-01T00:00:00Z", 0⟩

/-- C3 counterexample: the item's due date is null, a `due_before` bound
is given, and `filterPlanItems` INCLUDES the item — refuting the claim
that items with a null due date are excluded from due-date bound
filters. -/
theorem c3_counterexample :
    (c3Data.planItems.head?.map PlanItem.due_date = some none) ∧
    filterPlanItems c3Data { emptyPlanItemFilter with due_before := some "2025-01-01" } =
      [c4Item "i1" "p1"] := by
  exact ⟨rfl, by decide⟩

-- ─────────────────────────────────────────────────────────────
-- C1: error propagation of the mutating operations
-- ─────────────────────────────────────────────────────────────

/-- All five outreach collections coincide. -/
def oCollectionsEq (d d' : OutreachData) : Prop :=
  d'.categories = d.categories ∧ d'.contacts = d.contacts ∧
  d'.outreachActions = d.outreachActions ∧ d'.followUps = d.followUps ∧
  d'.outcomes = d.outcomes

/-- C1 (amended): persist and audit are never invoked for a failed call,
and every failing create operation and integrity-guarded delete leaves
all collections unchanged; BUT the outreach update operations
(`updateCategory`, `updateContact`, `updateOutreachAction`,
`updateFollowUpStatus`) assign the supplied changes to the stored record
in place BEFORE validating it, so when validation fails the mutated
record — not the original — is what remains in the collection. -/
theorem c1_error_propagation :
    (∀ (d : OutreachData) (id : String) (ch : CategoryChanges)
        (cat : ContactCategory) (l1 l2 : List ContactCategory) (e : String),
      d.categories = l1 ++ cat :: l2 → cat.id = id → (∀ y ∈ l1, y.id ≠ id) →
      validateContactCategory (contactCategoryJson
        { applyCategoryChanges cat ch with updated_at := d.clockGen d.clockCtr }) =
        .error e →
      (updateCategory d id ch).result = .error e ∧
      (updateCategory d id ch).persists = 0 ∧
      (updateCategory d id ch).audits = [] ∧
      (updateCategory d id ch).state.categories =
        l1 ++ { applyCategoryChanges cat ch with
                updated_at := d.clockGen d.clockCtr } :: l2) ∧
    (∀ (d : OutreachData) (id : String) (ch : ContactChanges)
        (ct : Contact) (l1 l2 : List Contact) (e : String),
      d.contacts = l1 ++ ct :: l2 → ct.id = id → (∀ y ∈ l1, y.id ≠ id) →
      validateContact (contactJson
        { applyContactChanges ct ch with updated_at := d.clockGen d.clockCtr }) =
        .error e →
      (updateContact d id ch).result = .error e ∧
      (updateContact d id ch).persists = 0 ∧
      (updateContact d id ch).audits = [] ∧
      (updateContact d id ch).state.contacts =
        l1 ++ { applyContactChanges ct ch with
                updated_at := d.clockGen d.clockCtr } :: l2) ∧
    (∀ (d : OutreachData) (id : String) (ch : ActionChanges)
        (act : OutreachAction) (l1 l2 : List OutreachAction) (e : String),
      d.outreachActions = l1 ++ act :: l2 → act.id = id → (∀ y ∈ l1, y.id ≠ id) →
      validateOutreachAction (outreachActionJson (applyActionChanges act ch)) = .error e →
      (updateOutreachAction d id ch).result = .error e ∧
      (updateOutreachAction d id ch).persists = 0 ∧
      (updateOutreachAction d id ch).audits = [] ∧
      (updateOutreachAction d id ch).state.outreachActions =
        l1 ++ applyActionChanges act ch :: l2) ∧
    (∀ (d : OutreachData) (id status : String)
        (fu : FollowUpItem) (l1 l2 : List FollowUpItem) (e : String),
      d.followUps = l1 ++ fu :: l2 → fu.id = id → (∀ y ∈ l1, y.id ≠ id) →
      validateFollowUpItem (followUpItemJson { fu with status := status }) = .error e →
      (updateFollowUpStatus d id status).result = .error e ∧
      (updateFollowUpStatus d id status).persists = 0 ∧
      (updateFollowUpStatus d id status).audits = [] ∧
      (updateFollowUpStatus d id status).state.followUps =
        l1 ++ { fu with status := status } :: l2) ∧
    (∀ (d : OutreachData) (name color : String) (tags : List String) (e : String),
      (createCategory d name color tags).result = .error e →
      oCollectionsEq d (createCategory d name color tags).state ∧
      (createCategory d name color tags).persists = 0 ∧
      (createCategory d name color tags).audits = []) ∧
    (∀ (d : OutreachData) (input : CreateContactInput) (e : String),
      (createContact d input).result = .error e →
      oCollectionsEq d (createContact d input).state ∧
      (createContact d input).persists = 0 ∧
      (createContact d input).audits = []) ∧
    (∀ (d : OutreachData) (input : CreateOutreachActionInput) (e : String),
      (recordOutreachAction d input).result = .error e →
      oCollectionsEq d (recordOutreachAction d input).state ∧
      (recordOutreachAction d input).persists = 0 ∧
      (recordOutreachAction d input).audits = []) ∧
    (∀ (d : OutreachData) (cid : String) (aid : Option String)
        (due notes e : String),
      (createFollowUp d cid aid due notes).result = .error e →
      oCollectionsEq d (createFollowUp d cid aid due notes).state ∧
      (createFollowUp d cid aid due notes).persists = 0 ∧
      (createFollowUp d cid aid due notes).audits = []) ∧
    (∀ (d : OutreachData) (input : CreateOutcomeInput) (e : String),
      (recordOutcome d input).result = .error e →
      oCollectionsEq d (recordOutcome d input).state ∧
      (recordOutcome d input).persists = 0 ∧
      (recordOutcome d input).audits = []) ∧
    (∀ (d : OutreachData) (id e : String),
      (deleteCategory d id).result = .error e →
      oCollectionsEq d (deleteCategory d id).state ∧
      (deleteCategory d id).persists = 0 ∧
      (deleteCategory d id).audits = []) ∧
    (∀ (d : OutreachData) (id e : String),
      (deleteContact d id).result = .error e →
      oCollectionsEq d (deleteContact d id).state ∧
      (deleteContact d id).persists = 0 ∧
      (deleteContact d id).audits = []) ∧
    (∀ (d : MasterPlanData) (input : CreatePlanItemInput) (e : String),
      (createPlanItem d input).result = .error e →
      (createPlanItem d input).state = d ∧
      (createPlanItem d input).persists = 0 ∧
      (createPlanItem d input).audits = []) := by
  refine ⟨?_, ?_, ?_, ?_, ?_, ?_, ?_, ?_, ?_, ?_, ?_, ?_⟩
  · intro d id ch cat l1 l2 e hsplit hid hl1 hv
    have hfind : d.categories.find? (fun y => y.id == id) = some cat := by
      rw [hsplit]; exact find?_first ContactCategory.id id l1 l2 cat hid hl1
    unfold updateCategory
    rw [hfind]
    simp only [OutreachData.tickNow]
    rw [hv]
    refine ⟨rfl, rfl, rfl, ?_⟩
    show replaceFirstBy ContactCategory.id d.categories id _ = _
    rw [hsplit]
    exact replaceFirstBy_first ContactCategory.id id l1 l2 cat _ hid hl1
  · intro d id ch ct l1 l2 e hsplit hid hl1 hv
    have hfind : d.contacts.find? (fun y => y.id == id) = some ct := by
      rw [hsplit]; exact find?_first Contact.id id l1 l2 ct hid hl1
    unfold updateContact
    rw [hfind]
    simp only [OutreachData.tickNow]
    rw [hv]
    refine ⟨rfl, rfl, rfl, ?_⟩
    show replaceFirstBy Contact.id d.contacts id _ = _
    rw [hsplit]
    exact replaceFirstBy_first Contact.id id l1 l2 ct _ hid hl1
  · intro d id ch act l1 l2 e hsplit hid hl1 hv
    have hfind : d.outreachActions.find? (fun y => y.id == id) = some act := by
      rw [hsplit]; exact find?_first OutreachAction.id id l1 l2 act hid hl1
    unfold updateOutreachAction
    rw [hfind]
    simp only []
    rw [hv]
    refine ⟨rfl, rfl, rfl, ?_⟩
    show replaceFirstBy OutreachAction.id d.outreachActions id _ = _
    rw [hsplit]
    exact replaceFirstBy_first OutreachAction.id id l1 l2 act _ hid hl1
  · intro d id status fu l1 l2 e hsplit hid hl1 hv
    have hfind : d.followUps.find? (fun y => y.id == id) = some fu := by
      rw [hsplit]; exact find?_first FollowUpItem.id id l1 l2 fu hid hl1
    unfold updateFollowUpStatus
    rw [hfind]
    simp only []
    rw [hv]
    refine ⟨rfl, rfl, rfl, ?_⟩
    show replaceFirstBy FollowUpItem.id d.followUps id _ = _
    rw [hsplit]
    exact replaceFirstBy_first FollowUpItem.id id l1 l2 fu _ hid hl1
  · intro d name color tags e h
    unfold createCategory at h ⊢
    simp only [OutreachData.freshUuid, OutreachData.tickNow] at h ⊢
    split at h
    · next heq =>
      exact ⟨⟨rfl, rfl, rfl, rfl, rfl⟩, rfl, rfl⟩
    · next heq => simp at h
  · intro d input e h
    unfold createContact at h ⊢
    split at h
    · next heq =>
      rw [if_pos heq]
      exact ⟨⟨rfl, rfl, rfl, rfl, rfl⟩, rfl, rfl⟩
    · next hne =>
      rw [if_neg hne]
      simp only [OutreachData.freshUuid, OutreachData.tickNow] at h ⊢
      split at h
      · next heq =>
        exact ⟨⟨rfl, rfl, rfl, rfl, rfl⟩, rfl, rfl⟩
      · next heq => simp at h
  · intro d input e h
    unfold recordOutreachAction at h ⊢
    split at h
    · next heq =>
      rw [if_pos heq]
      exact ⟨⟨rfl, rfl, rfl, rfl, rfl⟩, rfl, rfl⟩
    · next hne =>
      rw [if_neg hne]
      simp only [OutreachData.freshUuid, OutreachData.tickNow] at h ⊢
      split at h
      · next heq =>
        exact ⟨⟨rfl, rfl, rfl, rfl, rfl⟩, rfl, rfl⟩
      · next heq => simp at h
  · intro d cid aid due notes e h
    unfold createFollowUp at h ⊢
    split at h
    · next heq =>
      rw [if_pos heq]
      exact ⟨⟨rfl, rfl, rfl, rfl, rfl⟩, rfl, rfl⟩
    · next hne1 =>
      rw [if_neg hne1]
      split at h
      · next heq =>
        rw [if_pos heq]
        exact ⟨⟨rfl, rfl, rfl, rfl, rfl⟩, rfl, rfl⟩
      · next hne2 =>
        rw [if_neg hne2]
        simp only [OutreachData.freshUuid, OutreachData.tickNow] at h ⊢
        split at h
        · next heq =>
          exact ⟨⟨rfl, rfl, rfl, rfl, rfl⟩, rfl, rfl⟩
        · next heq => simp at h
  · intro d input e h
    unfold recordOutcome at h ⊢
    split at h
    · next heq =>
      rw [if_pos heq]
      exact ⟨⟨rfl, rfl, rfl, rfl, rfl⟩, rfl, rfl⟩
    · next hne1 =>
      rw [if_neg hne1]
      split at h
      · next heq =>
        rw [if_pos heq]
        exact ⟨⟨rfl, rfl, rfl, rfl, rfl⟩, rfl, rfl⟩
      · next hne2 =>
        rw [if_neg hne2]
        simp only [OutreachData.freshUuid, OutreachData.tickNow] at h ⊢
        split at h
        · next heq =>
          exact ⟨⟨rfl, rfl, rfl, rfl, rfl⟩, rfl, rfl⟩
        · next heq => simp at h
  · intro d id e h
    unfold deleteCategory at h ⊢
    split at h
    · next heq =>
      simp at h
    · next cat heq =>
      split at h
      · next hcond =>
        rw [if_pos hcond]
        exact ⟨⟨rfl, rfl, rfl, rfl, rfl⟩, rfl, rfl⟩
      · next hcond =>
        rw [if_neg hcond]
        simp at h
  · intro d id e h
    unfold deleteContact at h ⊢
    split at h
    · next heq =>
      simp at h
    · next ct heq =>
      split at h
      · next hcond =>
        rw [if_pos hcond]
        exact ⟨⟨rfl, rfl, rfl, rfl, rfl⟩, rfl, rfl⟩
      · next hcond =>
        rw [if_neg hcond]
        simp at h
  · intro d input e h
    unfold createPlanItem at h ⊢
    split at h
    · next hcond =>
      rw [if_pos hcond]
      exact ⟨rfl, rfl, rfl⟩
    · next hcond =>
      rw [if_neg hcond]
      simp at h

def c1Data : OutreachData :=
  ⟨[⟨"c1", "Media", "#f00", [], "2025-01-01T00:00:00Z", "2025-01-01T00:00:00Z"⟩],
   [], [], [], [], fun n => "u" ++ toString n, 0, fun _ => "2025-02-02T00:00:00Z", 0⟩

/-- C1 counterexample: an `updateCategory` whose supplied changes fail
validation (a blank name) throws — yet the stored record HAS changed:
the claim that the stored record is unchanged after a failed update is
false. -/
theorem c1_counterexample :
    (updateCategory c1Data "c1" { emptyCategoryChanges with name := some "   " }).result =
      .error "name: non-empty string" ∧
    (updateCategory c1Data "c1"
        { emptyCategoryChanges with name := some "   " }).state.categories ≠
      c1Data.categories ∧
    (updateCategory c1Data "c1" { emptyCategoryChanges with name := some "   " }).persists = 0 ∧
    (updateCategory c1Data "c1" { emptyCategoryChanges with name := some "   " }).audits = [] := by
  refine ⟨by decide, by decide, by decide, by decide⟩

theorem c1_witness :
    (updateCategory c1Data "c1" { emptyCategoryChanges with name := some "   " }).persists = 0 ∧
    (updateCategory c1Data "c1" { emptyCategoryChanges with name := some "   " }).audits = [] ∧
    (updateCategory c1Data "c1"
        { emptyCategoryChanges with name := some "   " }).state.categories =
      [⟨"c1", "", "#f00", [], "2025-01-01T00:00:00Z", "2025-02-02T00:00:00Z"⟩] := by
  obtain ⟨-, h2, h3, h4⟩ :=
    c1_error_propagation.1 c1Data "c1" { emptyCategoryChanges with name := some "   " }
      ⟨"c1", "Media", "#f00", [], "2025-01-01T00:00:00Z", "2025-01-01T00:00:00Z"⟩
      [] [] "name: non-empty string" rfl rfl (by simp) (by decide)
  refine ⟨h2, h3, ?_⟩
  rw [h4]
  decide

-- ─────────────────────────────────────────────────────────────
-- C2: error enumeration of the validators
-- ─────────────────────────────────────────────────────────────

/-- The field prefix of a `field: message` validator error. -/
def msgField (s : String) : String := ⟨s.data.takeWhile (fun c => c ≠ ':')⟩

/-- Spec §4.1: identifier fields must be non-empty strings. -/
def specIdentifierOk (v : Option Json) : Bool :=
  match v with
  | some (.jstr s) => s ≠ ""
  | _ => false

theorem string_length_pos_eq (s : String) : (decide (s.length > 0)) = (decide (s ≠ "")) := by
  by_cases h : s = ""
  · subst h; rfl
  · have hpos : s.length > 0 := by
      cases s with
      | mk data =>
        cases data with
        | nil => exact absurd rfl h
        | cons c cs => simp [String.length]
    simp [h, hpos]

theorem specIdentifierOk_eq (v : Option Json) : specIdentifierOk v = isUUIDo v := by
  cases v with
  | none => rfl
  | some j =>
    cases j <;> simp only [specIdentifierOk, isUUIDo]
    exact (string_length_pos_eq _).symm

theorem map_err_ite (b : Bool) (m : String) :
    List.map msgField (if (!b) = true then [m] else []) =
    (if b = true then [] else [msgField m]) := by
  cases b <;> simp

/-- The field names of every violated Project field constraint of §4.1,
in field order: the set the spec says a validation error enumerates. -/
def specProjectViolations (input : Json) : List String :=
  (if specIdentifierOk (input.get? "id") then [] else ["id"]) ++
  (if isNonEmptyStrO (input.get? "name") then [] else ["name"]) ++
  (if isStrO (input.get? "description") then [] else ["description"]) ++
  (if enumIncludesO PROJECT_STATUS (input.get? "status") then [] else ["status"]) ++
  (if isISODateO (input.get? "start_date") then [] else ["start_date"]) ++
  (if isISODateO (input.get? "target_end_date") then [] else ["target_end_date"]) ++
  (if isNonEmptyStrO (input.get? "color") then [] else ["color"]) ++
  (if isISODateTimeO (input.get? "created_at") then [] else ["created_at"]) ++
  (if isISODateTimeO (input.get? "updated_at") then [] else ["updated_at"])

/-- The field names of every violated top-level PlanItem field constraint
of §4.1, in field order. -/
def specPlanItemViolations (input : Json) : List String :=
  (if specIdentifierOk (input.get? "id") then [] else ["id"]) ++
  (if specIdentifierOk (input.get? "project_id") then [] else ["project_id"]) ++
  (if isNonEmptyStrO (input.get? "title") then [] else ["title"]) ++
  (if isStrO (input.get? "description") then [] else ["description"]) ++
  (if enumIncludesO PLAN_ITEM_CATEGORY (input.get? "category") then [] else ["category"]) ++
  (if enumIncludesO PLAN_ITEM_STATUS (input.get? "status") then [] else ["status"]) ++
  (if isNullO (input.get? "due_date") || isISODateO (input.get? "due_date") then []
   else ["due_date"]) ++
  (if enumIncludesO PLAN_ITEM_PRIORITY (input.get? "priority") then [] else ["priority"]) ++
  (if isArrayO (input.get? "checklist") then [] else ["checklist"]) ++
  (if isStrO (input.get? "notes") then [] else ["notes"]) ++
  (if isISODateTimeO (input.get? "created_at") then [] else ["created_at"]) ++
  (if isISODateTimeO (input.get? "updated_at") then [] else ["updated_at"])

/-- The messages of every violated ContactCategory field constraint, in
the validator's field order (first entry = first violated field). -/
def categoryViolationMsgs (input : Json) : List String :=
  (if isUUIDo (input.get? "id") then [] else ["id: invalid UUID"]) ++
  (if isNonEmptyStrO (input.get? "name") then [] else ["name: non-empty string"]) ++
  (if isNonEmptyStrO (input.get? "color") then [] else ["color: non-empty string"]) ++
  (if isStrArrayO (input.get? "tags") then [] else ["tags: string[]"]) ++
  (if isISODateTimeO (input.get? "created_at") then [] else ["created_at: ISO datetime"]) ++
  (if isISODateTimeO (input.get? "updated_at") then [] else ["updated_at: ISO datetime"])

/-- The messages of every violated Contact field constraint, in order. -/
def contactViolationMsgs (input : Json) : List String :=
  (if isUUIDo (input.get? "id") then [] else ["id: invalid UUID"]) ++
  (if isUUIDo (input.get? "category_id") then [] else ["category_id: invalid UUID"]) ++
  (if isStrO (input.get? "organization") then [] else ["organization: string"]) ++
  (if isStrO (input.get? "contact_name") then [] else ["contact_name: string"]) ++
  (if isStrO (input.get? "role") then [] else ["role: string"]) ++
  (if isStrO (input.get? "phone") then [] else ["phone: string"]) ++
  (if isStrO (input.get? "email") then [] else ["email: string"]) ++
  (if isStrO (input.get? "mailing_address") then [] else ["mailing_address: string"]) ++
  (if isStrO (input.get? "website_url") then [] else ["website_url: string"]) ++
  (if enumIncludesO PREFERRED_METHOD (input.get? "preferred_method") then []
   else ["preferred_method: one of " ++ String.intercalate "," PREFERRED_METHOD]) ++
  (if isStrArrayO (input.get? "tags") then [] else ["tags: string[]"]) ++
  (if isISODateTimeO (input.get? "created_at") then [] else ["created_at: ISO datetime"]) ++
  (if isISODateTimeO (input.get? "updated_at") then [] else ["updated_at: ISO datetime"])

/-- The messages of every violated OutreachAction field constraint. -/
def actionViolationMsgs (input : Json) : List String :=
  (if isUUIDo (input.get? "id") then [] else ["id: invalid UUID"]) ++
  (if isUUIDo (input.get? "contact_id") then [] else ["contact_id: invalid UUID"]) ++
  (if isISODateTimeO (input.get? "date") then [] else ["date: ISO datetime"]) ++
  (if enumIncludesO OUTREACH_METHOD (input.get? "method") then []
   else ["method: one of " ++ String.intercalate "," OUTREACH_METHOD]) ++
  (if isStrO (input.get? "summary") then [] else ["summary: string"]) ++
  (if isUUIDArrayO (input.get? "artifacts_sent") then []
   else ["artifacts_sent: UUID[]"]) ++
  (if isNullO (input.get? "linked_artifact_version") ||
      isUUIDo (input.get? "linked_artifact_version") then []
   else ["linked_artifact_version: UUID or null"]) ++
  (if enumIncludesO OUTREACH_OUTCOME (input.get? "outcome_status") then []
   else ["outcome_status: one of " ++ String.intercalate "," OUTREACH_OUTCOME]) ++
  (if isNullO (input.get? "next_follow_up_date") ||
      isISODateO (input.get? "next_follow_up_date") then []
   else ["next_follow_up_date: ISO date or null"]) ++
  (if isISODateTimeO (input.get? "created_at") then [] else ["created_at: ISO datetime"])

/-- The messages of every violated FollowUpItem field constraint. -/
def followUpViolationMsgs (input : Json) : List String :=
  (if isUUIDo (input.get? "id") then [] else ["id: invalid UUID"]) ++
  (if isUUIDo (input.get? "contact_id") then [] else ["contact_id: invalid UUID"]) ++
  (if isNullO (input.get? "outreach_action_id") ||
      isUUIDo (input.get? "outreach_action_id") then []
   else ["outreach_action_id: UUID or null"]) ++
  (if isISODateO (input.get? "due_date") then [] else ["due_date: ISO date"]) ++
  (if enumIncludesO FOLLOW_UP_STATUS (input.get? "status") then []
   else ["status: one of " ++ String.intercalate "," FOLLOW_UP_STATUS]) ++
  (if isStrO (input.get? "notes") then [] else ["notes: string"]) ++
  (if isISODateTimeO (input.get? "created_at") then [] else ["created_at: ISO datetime"])

/-- The messages of every violated OutcomeRecord field constraint. -/
def outcomeViolationMsgs (input : Json) : List String :=
  (if isUUIDo (input.get? "id") then [] else ["id: invalid UUID"]) ++
  (if isUUIDo (input.get? "contact_id") then [] else ["contact_id: invalid UUID"]) ++
  (if enumIncludesO OUTCOME_FINAL (input.get? "final_status") then []
   else ["final_status: one of " ++ String.intercalate "," OUTCOME_FINAL]) ++
  (if isISODateO (input.get? "date_closed") then [] else ["date_closed: ISO date"]) ++
  (if isStrO (input.get? "reason") then [] else ["reason: string"]) ++
  (if isStrO (input.get? "lesson_learned") then [] else ["lesson_learned: string"]) ++
  (if isNullO (input.get? "referred_contact_id") ||
      isUUIDo (input.get? "referred_contact_id") then []
   else ["referred_contact_id: UUID or null"]) ++
  (if isISODateTimeO (input.get? "created_at") then [] else ["created_at: ISO datetime"])


/-- C2 (amended): the master-plan validators (`validateProject`,
`validatePlanItem`) fail with an error enumerating every violated
top-level field — the error list maps exactly onto the spec-side list of
violated field constraints — while each of the five outreach validators
(`validateContactCategory`, `validateContact`, `validateOutreachAction`,
`validateFollowUpItem`, `validateOutcomeRecord`) reports only the FIRST
violated field of its ordered violation list. -/
theorem c2_validator_error_reporting :
    (∀ input : Json, isObjJ input = true →
      (projectErrors input).map msgField = specProjectViolations input ∧
      (specProjectViolations input ≠ [] →
        validateProject input = .error ("Project validation failed: " ++
          String.intercalate "; " (projectErrors input)))) ∧
    (∀ input : Json, isObjJ input = true →
      (planItemErrors input).map msgField = specPlanItemViolations input ∧
      (specPlanItemViolations input ≠ [] →
        validatePlanItem input = .error ("PlanItem validation failed: " ++
          String.intercalate "; " (planItemErrors input)))) ∧
    (∀ (input : Json) (m : String) (rest : List String), isObjJ input = true →
      categoryViolationMsgs input = m :: rest →
      validateContactCategory input = .error m) ∧
    (∀ (input : Json) (m : String) (rest : List String), isObjJ input = true →
      contactViolationMsgs input = m :: rest →
      validateContact input = .error m) ∧
    (∀ (input : Json) (m : String) (rest : List String), isObjJ input = true →
      actionViolationMsgs input = m :: rest →
      validateOutreachAction input = .error m) ∧
    (∀ (input : Json) (m : String) (rest : List String), isObjJ input = true →
      followUpViolationMsgs input = m :: rest →
      validateFollowUpItem input = .error m) ∧
    (∀ (input : Json) (m : String) (rest : List String), isObjJ input = true →
      outcomeViolationMsgs input = m :: rest →
      validateOutcomeRecord input = .error m) := by
  refine ⟨?_, ?_, ?_, ?_, ?_, ?_, ?_⟩
  · intro input hobj
    have hmap : (projectErrors input).map msgField = specProjectViolations input := by
      simp only [projectErrors, specProjectViolations, List.map_append, map_err_ite,
        specIdentifierOk_eq]
      rw [(by decide : msgField "id: invalid UUID" = "id"),
        (by decide : msgField "name: must be non-empty string" = "name"),
        (by decide : msgField "description: must be string" = "description"),
        (by decide : msgField ("status: must be one of " ++ String.intercalate ", " PROJECT_STATUS) = "status"),
        (by decide : msgField "start_date: must be YYYY-MM-DD" = "start_date"),
        (by decide : msgField "target_end_date: must be YYYY-MM-DD" = "target_end_date"),
        (by decide : msgField "color: must be non-empty string" = "color"),
        (by decide : msgField "created_at: must be ISO timestamp (Z)" = "created_at"),
        (by decide : msgField "updated_at: must be ISO timestamp (Z)" = "updated_at")]
    refine ⟨hmap, ?_⟩
    intro hne
    have herr : projectErrors input ≠ [] := by
      intro h0
      rw [h0] at hmap
      simp at hmap
      exact hne hmap
    unfold validateProject
    rw [if_neg (by simp [hobj]), if_pos herr]
  · intro input hobj
    have hmap : (planItemErrors input).map msgField = specPlanItemViolations input := by
      simp only [planItemErrors, specPlanItemViolations, List.map_append, map_err_ite,
        specIdentifierOk_eq]
      rw [(by decide : msgField "id: invalid UUID" = "id"),
        (by decide : msgField "project_id: invalid UUID" = "project_id"),
        (by decide : msgField "title: must be non-empty string" = "title"),
        (by decide : msgField "description: must be string" = "description"),
        (by decide : msgField ("category: must be one of " ++ String.intercalate ", " PLAN_ITEM_CATEGORY) = "category"),
        (by decide : msgField ("status: must be one of " ++ String.intercalate ", " PLAN_ITEM_STATUS) = "status"),
        (by decide : msgField "due_date: must be null or YYYY-MM-DD" = "due_date"),
        (by decide : msgField ("priority: must be one of " ++ String.intercalate ", " PLAN_ITEM_PRIORITY) = "priority"),
        (by decide : msgField "checklist: must be array" = "checklist"),
        (by decide : msgField "notes: must be string" = "notes"),
        (by decide : msgField "created_at: must be ISO timestamp (Z)" = "created_at"),
        (by decide : msgField "updated_at: must be ISO timestamp (Z)" = "updated_at")]
    refine ⟨hmap, ?_⟩
    intro hne
    have herr : planItemErrors input ≠ [] := by
      intro h0
      rw [h0] at hmap
      simp at hmap
      exact hne hmap
    unfold validatePlanItem
    rw [if_neg (by simp [hobj]), if_pos herr]
  · intro input m rest hobj hv
    cases h0 : isUUIDo (input.get? "id") with
    | false =>
      simp [categoryViolationMsgs, h0] at hv
      obtain ⟨hm, -⟩ := hv
      subst hm
      simp [validateContactCategory, hobj, h0]
    | true =>
      cases h1 : isNonEmptyStrO (input.get? "name") with
      | false =>
        simp [categoryViolationMsgs, h0, h1] at hv
        obtain ⟨hm, -⟩ := hv
        subst hm
        simp [validateContactCategory, hobj, h0, h1]
      | true =>
        cases h2 : isNonEmptyStrO (input.get? "color") with
        | false =>
          simp [categoryViolationMsgs, h0, h1, h2] at hv
          obtain ⟨hm, -⟩ := hv
          subst hm
          simp [validateContactCategory, hobj, h0, h1, h2]
        | true =>
          cases h3 : isStrArrayO (input.get? "tags") with
          | false =>
            simp [categoryViolationMsgs, h0, h1, h2, h3] at hv
            obtain ⟨hm, -⟩ := hv
            subst hm
            simp [validateContactCategory, hobj, h0, h1, h2, h3]
          | true =>
            cases h4 : isISODateTimeO (input.get? "created_at") with
            | false =>
              simp [categoryViolationMsgs, h0, h1, h2, h3, h4] at hv
              obtain ⟨hm, -⟩ := hv
              subst hm
              simp [validateContactCategory, hobj, h0, h1, h2, h3, h4]
            | true =>
              cases h5 : isISODateTimeO (input.get? "updated_at") with
              | false =>
                simp [categoryViolationMsgs, h0, h1, h2, h3, h4, h5] at hv
                obtain ⟨hm, -⟩ := hv
                subst hm
                simp [validateContactCategory, hobj, h0, h1, h2, h3, h4, h5]
              | true =>
                simp [categoryViolationMsgs, h0, h1, h2, h3, h4, h5] at hv
  · intro input m rest hobj hv
    cases h0 : isUUIDo (input.get? "id") with
    | false =>
      simp [contactViolationMsgs, h0] at hv
      obtain ⟨hm, -⟩ := hv
      subst hm
      simp [validateContact, hobj, h0]
    | true =>
      cases h1 : isUUIDo (input.get? "category_id") with
      | false =>
        simp [contactViolationMsgs, h0, h1] at hv
        obtain ⟨hm, -⟩ := hv
        subst hm
        simp [validateContact, hobj, h0, h1]
      | true =>
        cases h2 : isStrO (input.get? "organization") with
        | false =>
          simp [contactViolationMsgs, h0, h1, h2] at hv
          obtain ⟨hm, -⟩ := hv
          subst hm
          simp [validateContact, hobj, h0, h1, h2]
        | true =>
          cases h3 : isStrO (input.get? "contact_name") with
          | false =>
            simp [contactViolationMsgs, h0, h1, h2, h3] at hv
            obtain ⟨hm, -⟩ := hv
            subst hm
            simp [validateContact, hobj, h0, h1, h2, h3]
          | true =>
            cases h4 : isStrO (input.get? "role") with
            | false =>
              simp [contactViolationMsgs, h0, h1, h2, h3, h4] at hv
              obtain ⟨hm, -⟩ := hv
              subst hm
              simp [validateContact, hobj, h0, h1, h2, h3, h4]
            | true =>
              cases h5 : isStrO (input.get? "phone") with
              | false =>
                simp [contactViolationMsgs, h0, h1, h2, h3, h4, h5] at hv
                obtain ⟨hm, -⟩ := hv
                subst hm
                simp [validateContact, hobj, h0, h1, h2, h3, h4, h5]
              | true =>
                cases h6 : isStrO (input.get? "email") with
                | false =>
                  simp [contactViolationMsgs, h0, h1, h2, h3, h4, h5, h6] at hv
                  obtain ⟨hm, -⟩ := hv
                  subst hm
                  simp [validateContact, hobj, h0, h1, h2, h3, h4, h5, h6]
                | true =>
                  cases h7 : isStrO (input.get? "mailing_address") with
                  | false =>
                    simp [contactViolationMsgs, h0, h1, h2, h3, h4, h5, h6, h7] at hv
                    obtain ⟨hm, -⟩ := hv
                    subst hm
                    simp [validateContact, hobj, h0, h1, h2, h3, h4, h5, h6, h7]
                  | true =>
                    cases h8 : isStrO (input.get? "website_url") with
                    | false =>
                      simp [contactViolationMsgs, h0, h1, h2, h3, h4, h5, h6, h7, h8] at hv
                      obtain ⟨hm, -⟩ := hv
                      subst hm
                      simp [validateContact, hobj, h0, h1, h2, h3, h4, h5, h6, h7, h8]
                    | true =>
                      cases h9 : enumIncludesO PREFERRED_METHOD (input.get? "preferred_method") with
                      | false =>
                        simp [contactViolationMsgs, h0, h1, h2, h3, h4, h5, h6, h7, h8, h9] at hv
                        obtain ⟨hm, -⟩ := hv
                        subst hm
                        simp [validateContact, hobj, h0, h1, h2, h3, h4, h5, h6, h7, h8, h9]
                      | true =>
                        cases h10 : isStrArrayO (input.get? "tags") with
                        | false =>
                          simp [contactViolationMsgs, h0, h1, h2, h3, h4, h5, h6, h7, h8, h9, h10] at hv
                          obtain ⟨hm, -⟩ := hv
                          subst hm
                          simp [validateContact, hobj, h0, h1, h2, h3, h4, h5, h6, h7, h8, h9, h10]
                        | true =>
                          cases h11 : isISODateTimeO (input.get? "created_at") with
                          | false =>
                            simp [contactViolationMsgs, h0, h1, h2, h3, h4, h5, h6, h7, h8, h9, h10, h11] at hv
                            obtain ⟨hm, -⟩ := hv
                            subst hm
                            simp [validateContact, hobj, h0, h1, h2, h3, h4, h5, h6, h7, h8, h9, h10, h11]
                          | true =>
                            cases h12 : isISODateTimeO (input.get? "updated_at") with
                            | false =>
                              simp [contactViolationMsgs, h0, h1, h2, h3, h4, h5, h6, h7, h8, h9, h10, h11, h12] at hv
                              obtain ⟨hm, -⟩ := hv
                              subst hm
                              simp [validateContact, hobj, h0, h1, h2, h3, h4, h5, h6, h7, h8, h9, h10, h11, h12]
                            | true =>
                              simp [contactViolationMsgs, h0, h1, h2, h3, h4, h5, h6, h7, h8, h9, h10, h11, h12] at hv
  · intro input m rest hobj hv
    cases h0 : isUUIDo (input.get? "id") with
    | false =>
      simp [actionViolationMsgs, h0] at hv
      obtain ⟨hm, -⟩ := hv
      subst hm
      simp [validateOutreachAction, hobj, h0]
    | true =>
      cases h1 : isUUIDo (input.get? "contact_id") with
      | false =>
        simp [actionViolationMsgs, h0, h1] at hv
        obtain ⟨hm, -⟩ := hv
        subst hm
        simp [validateOutreachAction, hobj, h0, h1]
      | true =>
        cases h2 : isISODateTimeO (input.get? "date") with
        | false =>
          simp [actionViolationMsgs, h0, h1, h2] at hv
          obtain ⟨hm, -⟩ := hv
          subst hm
          simp [validateOutreachAction, hobj, h0, h1, h2]
        | true =>
          cases h3 : enumIncludesO OUTREACH_METHOD (input.get? "method") with
          | false =>
            simp [actionViolationMsgs, h0, h1, h2, h3] at hv
            obtain ⟨hm, -⟩ := hv
            subst hm
            simp [validateOutreachAction, hobj, h0, h1, h2, h3]
          | true =>
            cases h4 : isStrO (input.get? "summary") with
            | false =>
              simp [actionViolationMsgs, h0, h1, h2, h3, h4] at hv
              obtain ⟨hm, -⟩ := hv
              subst hm
              simp [validateOutreachAction, hobj, h0, h1, h2, h3, h4]
            | true =>
              cases h5 : isUUIDArrayO (input.get? "artifacts_sent") with
              | false =>
                simp [actionViolationMsgs, h0, h1, h2, h3, h4, h5] at hv
                obtain ⟨hm, -⟩ := hv
                subst hm
                simp [validateOutreachAction, hobj, h0, h1, h2, h3, h4, h5]
              | true =>
                cases h6 : (isNullO (input.get? "linked_artifact_version") || isUUIDo (input.get? "linked_artifact_version")) with
                | false =>
                  simp [actionViolationMsgs, h0, h1, h2, h3, h4, h5, h6] at hv
                  obtain ⟨hm, -⟩ := hv
                  subst hm
                  simp [validateOutreachAction, hobj, h0, h1, h2, h3, h4, h5, h6]
                | true =>
                  cases h7 : enumIncludesO OUTREACH_OUTCOME (input.get? "outcome_status") with
                  | false =>
                    simp [actionViolationMsgs, h0, h1, h2, h3, h4, h5, h6, h7] at hv
                    obtain ⟨hm, -⟩ := hv
                    subst hm
                    simp [validateOutreachAction, hobj, h0, h1, h2, h3, h4, h5, h6, h7]
                  | true =>
                    cases h8 : (isNullO (input.get? "next_follow_up_date") || isISODateO (input.get? "next_follow_up_date")) with
                    | false =>
                      simp [actionViolationMsgs, h0, h1, h2, h3, h4, h5, h6, h7, h8] at hv
                      obtain ⟨hm, -⟩ := hv
                      subst hm
                      simp [validateOutreachAction, hobj, h0, h1, h2, h3, h4, h5, h6, h7, h8]
                    | true =>
                      cases h9 : isISODateTimeO (input.get? "created_at") with
                      | false =>
                        simp [actionViolationMsgs, h0, h1, h2, h3, h4, h5, h6, h7, h8, h9] at hv
                        obtain ⟨hm, -⟩ := hv
                        subst hm
                        simp [validateOutreachAction, hobj, h0, h1, h2, h3, h4, h5, h6, h7, h8, h9]
                      | true =>
                        simp [actionViolationMsgs, h0, h1, h2, h3, h4, h5, h6, h7, h8, h9] at hv
  · intro input m rest hobj hv
    cases h0 : isUUIDo (input.get? "id") with
    | false =>
      simp [followUpViolationMsgs, h0] at hv
      obtain ⟨hm, -⟩ := hv
      subst hm
      simp [validateFollowUpItem, hobj, h0]
    | true =>
      cases h1 : isUUIDo (input.get? "contact_id") with
      | false =>
        simp [followUpViolationMsgs, h0, h1] at hv
        obtain ⟨hm, -⟩ := hv
        subst hm
        simp [validateFollowUpItem, hobj, h0, h1]
      | true =>
        cases h2 : (isNullO (input.get? "outreach_action_id") || isUUIDo (input.get? "outreach_action_id")) with
        | false =>
          simp [followUpViolationMsgs, h0, h1, h2] at hv
          obtain ⟨hm, -⟩ := hv
          subst hm
          simp [validateFollowUpItem, hobj, h0, h1, h2]
        | true =>
          cases h3 : isISODateO (input.get? "due_date") with
          | false =>
            simp [followUpViolationMsgs, h0, h1, h2, h3] at hv
            obtain ⟨hm, -⟩ := hv
            subst hm
            simp [validateFollowUpItem, hobj, h0, h1, h2, h3]
          | true =>
            cases h4 : enumIncludesO FOLLOW_UP_STATUS (input.get? "status") with
            | false =>
              simp [followUpViolationMsgs, h0, h1, h2, h3, h4] at hv
              obtain ⟨hm, -⟩ := hv
              subst hm
              simp [validateFollowUpItem, hobj, h0, h1, h2, h3, h4]
            | true =>
              cases h5 : isStrO (input.get? "notes") with
              | false =>
                simp [followUpViolationMsgs, h0, h1, h2, h3, h4, h5] at hv
                obtain ⟨hm, -⟩ := hv
                subst hm
                simp [validateFollowUpItem, hobj, h0, h1, h2, h3, h4, h5]
              | true =>
                cases h6 : isISODateTimeO (input.get? "created_at") with
                | false =>
                  simp [followUpViolationMsgs, h0, h1, h2, h3, h4, h5, h6] at hv
                  obtain ⟨hm, -⟩ := hv
                  subst hm
                  simp [validateFollowUpItem, hobj, h0, h1, h2, h3, h4, h5, h6]
                | true =>
                  simp [followUpViolationMsgs, h0, h1, h2, h3, h4, h5, h6] at hv
  · intro input m rest hobj hv
    cases h0 : isUUIDo (input.get? "id") with
    | false =>
      simp [outcomeViolationMsgs, h0] at hv
      obtain ⟨hm, -⟩ := hv
      subst hm
      simp [validateOutcomeRecord, hobj, h0]
    | true =>
      cases h1 : isUUIDo (input.get? "contact_id") with
      | false =>
        simp [outcomeViolationMsgs, h0, h1] at hv
        obtain ⟨hm, -⟩ := hv
        subst hm
        simp [validateOutcomeRecord, hobj, h0, h1]
      | true =>
        cases h2 : enumIncludesO OUTCOME_FINAL (input.get? "final_status") with
        | false =>
          simp [outcomeViolationMsgs, h0, h1, h2] at hv
          obtain ⟨hm, -⟩ := hv
          subst hm
          simp [validateOutcomeRecord, hobj, h0, h1, h2]
        | true =>
          cases h3 : isISODateO (input.get? "date_closed") with
          | false =>
            simp [outcomeViolationMsgs, h0, h1, h2, h3] at hv
            obtain ⟨hm, -⟩ := hv
            subst hm
            simp [validateOutcomeRecord, hobj, h0, h1, h2, h3]
          | true =>
            cases h4 : isStrO (input.get? "reason") with
            | false =>
              simp [outcomeViolationMsgs, h0, h1, h2, h3, h4] at hv
              obtain ⟨hm, -⟩ := hv
              subst hm
              simp [validateOutcomeRecord, hobj, h0, h1, h2, h3, h4]
            | true =>
              cases h5 : isStrO (input.get? "lesson_learned") with
              | false =>
                simp [outcomeViolationMsgs, h0, h1, h2, h3, h4, h5] at hv
                obtain ⟨hm, -⟩ := hv
                subst hm
                simp [validateOutcomeRecord, hobj, h0, h1, h2, h3, h4, h5]
              | true =>
                cases h6 : (isNullO (input.get? "referred_contact_id") || isUUIDo (input.get? "referred_contact_id")) with
                | false =>
                  simp [outcomeViolationMsgs, h0, h1, h2, h3, h4, h5, h6] at hv
                  obtain ⟨hm, -⟩ := hv
                  subst hm
                  simp [validateOutcomeRecord, hobj, h0, h1, h2, h3, h4, h5, h6]
                | true =>
                  cases h7 : isISODateTimeO (input.get? "created_at") with
                  | false =>
                    simp [outcomeViolationMsgs, h0, h1, h2, h3, h4, h5, h6, h7] at hv
                    obtain ⟨hm, -⟩ := hv
                    subst hm
                    simp [validateOutcomeRecord, hobj, h0, h1, h2, h3, h4, h5, h6, h7]
                  | true =>
                    simp [outcomeViolationMsgs, h0, h1, h2, h3, h4, h5, h6, h7] at hv

def c2Bad : Json :=
  .jobj [("id", .jstr "c1"), ("category_id", .jstr "k1"),
         ("organization", .jnum 1), ("contact_name", .jnum 2),
         ("role", .jstr "r"), ("phone", .jstr "p"), ("email", .jstr "e"),
         ("mailing_address", .jstr "m"), ("website_url", .jstr "w"),
         ("preferred_method", .jstr "Email"), ("tags", .jarr []),
         ("created_at", .jstr "2025-01-01T00:00:00Z"),
         ("updated_at", .jstr "2025-01-01T00:00:00Z")]

/-- C2 counterexample: this Contact input violates TWO field constraints
(`organization` and `contact_name` are numbers, not strings), yet
`validateContact` fails naming only the first — the error does not
enumerate every violated field. -/
theorem c2_counterexample :
    contactViolationMsgs c2Bad = ["organization: string", "contact_name: string"] ∧
    validateContact c2Bad = .error "organization: string" := by
  exact ⟨by decide, by decide⟩

def c2BadProj : Json :=
  .jobj [("id", .jstr "p1"), ("description", .jstr "d"),
         ("status", .jstr "Bogus"), ("start_date", .jstr "2025-01-01"),
         ("target_end_date", .jstr "2025-01-02"), ("color", .jstr "#fff"),
         ("created_at", .jstr "2025-01-01T00:00:00Z"),
         ("updated_at", .jstr "2025-01-01T00:00:00Z")]

theorem c2_witness :
    (projectErrors c2BadProj).map msgField = ["name", "status"] ∧
    validateProject c2BadProj = .error ("Project validation failed: " ++
      String.intercalate "; " (projectErrors c2BadProj)) ∧
    validateContact c2Bad = .error "organization: string" := by
  obtain ⟨hmap, herr⟩ := c2_validator_error_reporting.1 c2BadProj (by decide)
  refine ⟨?_, herr (by decide), ?_⟩
  · rw [hmap]; decide
  · exact c2_validator_error_reporting.2.2.2.1 c2Bad "organization: string"
      ["contact_name: string"] (by decide) (by decide)

-- ─────────────────────────────────────────────────────────────
-- C6: snapshot load semantics
-- ─────────────────────────────────────────────────────────────

theorem mapValidateIdx_ok {α : Type} (c : String) (vf : Json → Except String α)
    (k : Nat) (xs : List Json) (h : ∀ x ∈ xs, ∃ v, vf x = .ok v) :
    ∃ vs, mapValidateIdx c vf k xs = .ok vs := by
  induction xs generalizing k with
  | nil => exact ⟨[], rfl⟩
  | cons x rest ih =>
    obtain ⟨v, hv⟩ := h x (by simp)
    obtain ⟨vs, hvs⟩ := ih (k + 1) (fun y hy => h y (by simp [hy]))
    exact ⟨v :: vs, by simp [mapValidateIdx, hv, hvs]⟩

theorem mapValidateIdx_err {α : Type} (c : String) (vf : Json → Except String α)
    (k : Nat) (pre : List Json) (bad : Json) (restArr : List Json) (e : String)
    (hpre : ∀ x ∈ pre, ∃ v, vf x = .ok v) (hbad : vf bad = .error e) :
    mapValidateIdx c vf k (pre ++ bad :: restArr) =
      .error (c ++ "[" ++ toString (k + pre.length) ++ "] invalid: " ++ e) := by
  induction pre generalizing k with
  | nil => simp [mapValidateIdx, hbad]
  | cons x rest ih =>
    obtain ⟨v, hv⟩ := hpre x (by simp)
    have hrec := ih (k + 1) (fun y hy => hpre y (by simp [hy]))
    have harith : k + 1 + rest.length = k + (x :: rest).length := by
      simp [List.length_cons]; omega
    rw [List.cons_append]
    simp [mapValidateIdx, hv, hrec, harith]

/-- C6 (amended): `load` on a missing file yields the empty container;
a JSON syntax error or a null/boolean/number/string root fails loudly
with the generic prefix; BUT an ARRAY root — equally malformed at the
container level — silently yields a defaulted empty container, because
the root check only tests JS `typeof`; and a single corrupt entity
record in any collection fails the entire load with per-index error
attribution. -/
theorem c6_load_semantics :
    (∀ nw : String,
      loadSnapshot .enoent nw = .ok (createEmptySnapshot nw) ∧
      loadOutreachSnapshot .enoent nw = .ok (emptyOutreachSnapshot nw)) ∧
    (∀ (nw msg : String),
      loadSnapshot (.badSyntax msg) nw = .error ("Failed to load snapshot: " ++ msg) ∧
      loadOutreachSnapshot (.badSyntax msg) nw =
        .error ("Failed to load outreach snapshot: " ++ msg)) ∧
    (∀ (nw : String) (j : Json), rootPassesObjectCheck j = false →
      loadSnapshot (.parsed j) nw = .error "Failed to load snapshot: Snapshot root not an object" ∧
      loadOutreachSnapshot (.parsed j) nw =
        .error "Failed to load outreach snapshot: Snapshot root invalid") ∧
    (∀ (nw : String) (xs : List Json),
      loadSnapshot (.parsed (.jarr xs)) nw = .ok (createEmptySnapshot nw) ∧
      loadOutreachSnapshot (.parsed (.jarr xs)) nw = .ok (emptyOutreachSnapshot nw)) ∧
    (∀ (fs : List (String × Json)) (nw : String) (pre : List Json) (bad : Json)
        (restArr : List Json) (e : String),
      (Json.jobj fs).get? "projects" = some (.jarr (pre ++ bad :: restArr)) →
      (∀ x ∈ pre, ∃ v, validateProject x = .ok v) →
      validateProject bad = .error e →
      loadSnapshot (.parsed (.jobj fs)) nw =
        .error ("Failed to load snapshot: " ++
          ("Project" ++ "[" ++ toString pre.length ++ "] invalid: " ++ e))) ∧
    (∀ (fs : List (String × Json)) (nw : String) (pre : List Json) (bad : Json)
        (restArr : List Json) (e : String),
      (Json.jobj fs).get? "projects" = none →
      (Json.jobj fs).get? "plan_items" = some (.jarr (pre ++ bad :: restArr)) →
      (∀ x ∈ pre, ∃ v, validatePlanItem x = .ok v) →
      validatePlanItem bad = .error e →
      loadSnapshot (.parsed (.jobj fs)) nw =
        .error ("Failed to load snapshot: " ++
          ("PlanItem" ++ "[" ++ toString pre.length ++ "] invalid: " ++ e))) ∧
    (∀ (fs : List (String × Json)) (nw : String) (pre : List Json) (bad : Json)
        (restArr : List Json) (e : String),
      (Json.jobj fs).get? "categories" = some (.jarr (pre ++ bad :: restArr)) →
      (∀ x ∈ pre, ∃ v, validateContactCategory x = .ok v) →
      validateContactCategory bad = .error e →
      loadOutreachSnapshot (.parsed (.jobj fs)) nw =
        .error ("Failed to load outreach snapshot: " ++
          ("Category" ++ "[" ++ toString pre.length ++ "] invalid: " ++ e))) ∧
    (∀ (fs : List (String × Json)) (nw : String) (pre : List Json) (bad : Json)
        (restArr : List Json) (e : String),
      (Json.jobj fs).get? "categories" = none →
      (Json.jobj fs).get? "contacts" = some (.jarr (pre ++ bad :: restArr)) →
      (∀ x ∈ pre, ∃ v, validateContact x = .ok v) →
      validateContact bad = .error e →
      loadOutreachSnapshot (.parsed (.jobj fs)) nw =
        .error ("Failed to load outreach snapshot: " ++
          ("Contact" ++ "[" ++ toString pre.length ++ "] invalid: " ++ e))) ∧
    (∀ (fs : List (String × Json)) (nw : String) (pre : List Json) (bad : Json)
        (restArr : List Json) (e : String),
      (Json.jobj fs).get? "categories" = none →
      (Json.jobj fs).get? "contacts" = none →
      (Json.jobj fs).get? "outreach_actions" = some (.jarr (pre ++ bad :: restArr)) →
      (∀ x ∈ pre, ∃ v, validateOutreachAction x = .ok v) →
      validateOutreachAction bad = .error e →
      loadOutreachSnapshot (.parsed (.jobj fs)) nw =
        .error ("Failed to load outreach snapshot: " ++
          ("OutreachAction" ++ "[" ++ toString pre.length ++ "] invalid: " ++ e))) ∧
    (∀ (fs : List (String × Json)) (nw : String) (pre : List Json) (bad : Json)
        (restArr : List Json) (e : String),
      (Json.jobj fs).get? "categories" = none →
      (Json.jobj fs).get? "contacts" = none →
      (Json.jobj fs).get? "outreach_actions" = none →
      (Json.jobj fs).get? "follow_ups" = some (.jarr (pre ++ bad :: restArr)) →
      (∀ x ∈ pre, ∃ v, validateFollowUpItem x = .ok v) →
      validateFollowUpItem bad = .error e →
      loadOutreachSnapshot (.parsed (.jobj fs)) nw =
        .error ("Failed to load outreach snapshot: " ++
          ("FollowUp" ++ "[" ++ toString pre.length ++ "] invalid: " ++ e))) ∧
    (∀ (fs : List (String × Json)) (nw : String) (pre : List Json) (bad : Json)
        (restArr : List Json) (e : String),
      (Json.jobj fs).get? "categories" = none →
      (Json.jobj fs).get? "contacts" = none →
      (Json.jobj fs).get? "outreach_actions" = none →
      (Json.jobj fs).get? "follow_ups" = none →
      (Json.jobj fs).get? "outcomes" = some (.jarr (pre ++ bad :: restArr)) →
      (∀ x ∈ pre, ∃ v, validateOutcomeRecord x = .ok v) →
      validateOutcomeRecord bad = .error e →
      loadOutreachSnapshot (.parsed (.jobj fs)) nw =
        .error ("Failed to load outreach snapshot: " ++
          ("Outcome" ++ "[" ++ toString pre.length ++ "] invalid: " ++ e))) := by
  refine ⟨?_, ?_, ?_, ?_, ?_, ?_, ?_, ?_, ?_, ?_, ?_⟩
  · intro nw; exact ⟨rfl, rfl⟩
  · intro nw msg; exact ⟨rfl, rfl⟩
  · intro nw j h
    constructor
    · simp [loadSnapshot, h]
    · simp [loadOutreachSnapshot, h]
  · intro nw xs; exact ⟨rfl, rfl⟩
  · intro fs nw pre bad restArr e hget hpre hbad
    have hmap := mapValidateIdx_err "Project" validateProject 0 pre bad restArr e hpre hbad
    rw [Nat.zero_add] at hmap
    simp [loadSnapshot, rootPassesObjectCheck, mapValidateIdx, hget, hmap]
  · intro fs nw pre bad restArr e hn0 hget hpre hbad
    have hmap := mapValidateIdx_err "PlanItem" validatePlanItem 0 pre bad restArr e hpre hbad
    rw [Nat.zero_add] at hmap
    simp [loadSnapshot, rootPassesObjectCheck, mapValidateIdx, hget, hmap, hn0]
  · intro fs nw pre bad restArr e hget hpre hbad
    have hmap := mapValidateIdx_err "Category" validateContactCategory 0 pre bad restArr e hpre hbad
    rw [Nat.zero_add] at hmap
    simp [loadOutreachSnapshot, rootPassesObjectCheck, mapValidateIdx, hget, hmap]
  · intro fs nw pre bad restArr e hn0 hget hpre hbad
    have hmap := mapValidateIdx_err "Contact" validateContact 0 pre bad restArr e hpre hbad
    rw [Nat.zero_add] at hmap
    simp [loadOutreachSnapshot, rootPassesObjectCheck, mapValidateIdx, hget, hmap, hn0]
  · intro fs nw pre bad restArr e hn0 hn1 hget hpre hbad
    have hmap := mapValidateIdx_err "OutreachAction" validateOutreachAction 0 pre bad restArr e hpre hbad
    rw [Nat.zero_add] at hmap
    simp [loadOutreachSnapshot, rootPassesObjectCheck, mapValidateIdx, hget, hmap, hn0, hn1]
  · intro fs nw pre bad restArr e hn0 hn1 hn2 hget hpre hbad
    have hmap := mapValidateIdx_err "FollowUp" validateFollowUpItem 0 pre bad restArr e hpre hbad
    rw [Nat.zero_add] at hmap
    simp [loadOutreachSnapshot, rootPassesObjectCheck, mapValidateIdx, hget, hmap, hn0, hn1, hn2]
  · intro fs nw pre bad restArr e hn0 hn1 hn2 hn3 hget hpre hbad
    have hmap := mapValidateIdx_err "Outcome" validateOutcomeRecord 0 pre bad restArr e hpre hbad
    rw [Nat.zero_add] at hmap
    simp [loadOutreachSnapshot, rootPassesObjectCheck, mapValidateIdx, hget, hmap, hn0, hn1, hn2, hn3]

/-- C6 counterexample: a file whose JSON root is an ARRAY is malformed at
the container level, yet both loaders return a defaulted empty container
instead of failing loudly (in JS `typeof [] === 'object'`). -/
theorem c6_counterexample :
    loadSnapshot (.parsed (.jarr [])) "2025-03-03T00:00:00Z" =
      .ok (createEmptySnapshot "2025-03-03T00:00:00Z") ∧
    loadOutreachSnapshot (.parsed (.jarr [.jnum 1])) "2025-03-03T00:00:00Z" =
      .ok (emptyOutreachSnapshot "2025-03-03T00:00:00Z") := by
  exact ⟨by decide, by decide⟩

theorem c6_witness :
    loadSnapshot (.parsed (.jnum 5)) "2025-03-03T00:00:00Z" =
      .error "Failed to load snapshot: Snapshot root not an object" ∧
    loadSnapshot (.parsed (.jobj [("projects", .jarr [.jstr "oops"])]))
        "2025-03-03T00:00:00Z" =
      .error "Failed to load snapshot: Project[0] invalid: Project must be an object" := by
  have h3 := (c6_load_semantics.2.2.1 "2025-03-03T00:00:00Z" (.jnum 5) rfl).1
  have h5 := c6_load_semantics.2.2.2.2.1 [("projects", .jarr [.jstr "oops"])]
    "2025-03-03T00:00:00Z" [] (.jstr "oops") [] "Project must be an object"
    rfl (by simp) (by decide)
  refine ⟨h3, ?_⟩
  rw [h5]
  decide

-- ─────────────────────────────────────────────────────────────
-- C7: snapshot round trip — validators accept their own encodings
-- ─────────────────────────────────────────────────────────────

theorem optStrO_some_jOfOpt (x : Option String) : optStrO (some (jOfOpt x)) = x := by
  cases x <;> rfl

theorem nullOrUuid_jOfOpt (x : Option String) :
    (isNullO (some (jOfOpt x)) || isUUIDo (some (jOfOpt x))) =
    (match x with | none => true | some s => decide (s.length > 0)) := by
  cases x <;> simp [isNullO, isUUIDo, jOfOpt]

theorem nullOrDate_jOfOpt (x : Option String) :
    (isNullO (some (jOfOpt x)) || isISODateO (some (jOfOpt x))) =
    (match x with | none => true | some s => isISODateStr s) := by
  cases x <;> simp [isNullO, isISODateO, jOfOpt]

theorem isStrArrayO_map_jstr (ts : List String) :
    isStrArrayO (some (.jarr (ts.map Json.jstr))) = true := by
  simp [isStrArrayO, List.all_map, Function.comp]

theorem strArrO_map_jstr (ts : List String) :
    strArrO (some (.jarr (ts.map Json.jstr))) = ts := by
  show (ts.map Json.jstr).map _ = ts
  rw [List.map_map]
  show ts.map (fun s => s) = ts
  simp

theorem isUUIDArrayO_map_jstr (as : List String) :
    isUUIDArrayO (some (.jarr (as.map Json.jstr))) =
      as.all (fun s => decide (s.length > 0)) := by
  show (as.map Json.jstr).all _ = _
  induction as with
  | nil => rfl
  | cons a rest ih =>
    simp only [List.map_cons, List.all_cons]
    rw [ih]

theorem validateContactCategory_canonical (c : ContactCategory)
    (h : isCanonicalContactCategory c = true) :
    validateContactCategory (contactCategoryJson c) = .ok c := by
  simp only [isCanonicalContactCategory, trimmed, Bool.and_eq_true, decide_eq_true_eq,
    beq_iff_eq, and_assoc] at h
  obtain ⟨h1, h2, h3, h4, h5, h6, h7⟩ := h
  have g1 : (contactCategoryJson c).get? "id" = some (.jstr c.id) := rfl
  have g2 : (contactCategoryJson c).get? "name" = some (.jstr c.name) := rfl
  have g3 : (contactCategoryJson c).get? "color" = some (.jstr c.color) := rfl
  have g4 : (contactCategoryJson c).get? "tags" = some (.jarr (c.tags.map Json.jstr)) := rfl
  have g5 : (contactCategoryJson c).get? "created_at" = some (.jstr c.created_at) := rfl
  have g6 : (contactCategoryJson c).get? "updated_at" = some (.jstr c.updated_at) := rfl
  have h2' : c.name ≠ "" := h3 ▸ h2
  have h4' : c.color ≠ "" := h5 ▸ h4
  unfold validateContactCategory
  rw [if_neg (by simp [contactCategoryJson, isObjJ])]
  simp [g1, g2, g3, g4, g5, g6, isUUIDo, isNonEmptyStrO, isStrO, strO,
    isStrArrayO_map_jstr, strArrO_map_jstr, isISODateTimeO,
    h1, h2, h3, h4, h5, h6, h7, h2', h4']

theorem validateContact_canonical (c : Contact)
    (h : isCanonicalContact c = true) :
    validateContact (contactJson c) = .ok c := by
  simp only [isCanonicalContact, Bool.and_eq_true, decide_eq_true_eq, and_assoc] at h
  obtain ⟨h1, h2, h3, h4, h5⟩ := h
  have g1 : (contactJson c).get? "id" = some (.jstr c.id) := rfl
  have g2 : (contactJson c).get? "category_id" = some (.jstr c.category_id) := rfl
  have g3 : (contactJson c).get? "organization" = some (.jstr c.organization) := rfl
  have g4 : (contactJson c).get? "contact_name" = some (.jstr c.contact_name) := rfl
  have g5 : (contactJson c).get? "role" = some (.jstr c.role) := rfl
  have g6 : (contactJson c).get? "phone" = some (.jstr c.phone) := rfl
  have g7 : (contactJson c).get? "email" = some (.jstr c.email) := rfl
  have g8 : (contactJson c).get? "mailing_address" = some (.jstr c.mailing_address) := rfl
  have g9 : (contactJson c).get? "website_url" = some (.jstr c.website_url) := rfl
  have g10 : (contactJson c).get? "preferred_method" = some (.jstr c.preferred_method) := rfl
  have g11 : (contactJson c).get? "tags" = some (.jarr (c.tags.map Json.jstr)) := rfl
  have g12 : (contactJson c).get? "created_at" = some (.jstr c.created_at) := rfl
  have g13 : (contactJson c).get? "updated_at" = some (.jstr c.updated_at) := rfl
  have h3' : c.preferred_method ∈ PREFERRED_METHOD := by simpa using h3
  unfold validateContact
  rw [if_neg (by simp [contactJson, isObjJ])]
  simp [g1, g2, g3, g4, g5, g6, g7, g8, g9, g10, g11, g12, g13,
    isUUIDo, isStrO, strO, enumIncludesO, isStrArrayO_map_jstr, strArrO_map_jstr,
    isISODateTimeO, h1, h2, h3, h3', h4, h5]

theorem validateOutreachAction_canonical (a : OutreachAction)
    (h : isCanonicalOutreachAction a = true) :
    validateOutreachAction (outreachActionJson a) = .ok a := by
  simp only [isCanonicalOutreachAction, Bool.and_eq_true, decide_eq_true_eq,
    and_assoc] at h
  obtain ⟨h1, h2, h3, h4, h5, h6, h7, h8, h9⟩ := h
  have g1 : (outreachActionJson a).get? "id" = some (.jstr a.id) := rfl
  have g2 : (outreachActionJson a).get? "contact_id" = some (.jstr a.contact_id) := rfl
  have g3 : (outreachActionJson a).get? "date" = some (.jstr a.date) := rfl
  have g4 : (outreachActionJson a).get? "method" = some (.jstr a.method) := rfl
  have g5 : (outreachActionJson a).get? "summary" = some (.jstr a.summary) := rfl
  have g6 : (outreachActionJson a).get? "artifacts_sent" =
      some (.jarr (a.artifacts_sent.map Json.jstr)) := rfl
  have g7 : (outreachActionJson a).get? "linked_artifact_version" =
      some (jOfOpt a.linked_artifact_version) := rfl
  have g8 : (outreachActionJson a).get? "outcome_status" =
      some (.jstr a.outcome_status) := rfl
  have g9 : (outreachActionJson a).get? "next_follow_up_date" =
      some (jOfOpt a.next_follow_up_date) := rfl
  have g10 : (outreachActionJson a).get? "created_at" = some (.jstr a.created_at) := rfl
  have h4' : a.method ∈ OUTREACH_METHOD := by simpa using h4
  have h7' : a.outcome_status ∈ OUTREACH_OUTCOME := by simpa using h7
  unfold validateOutreachAction
  rw [if_neg (by simp [outreachActionJson, isObjJ])]
  simp only [g1, g2, g3, g4, g5, g6, g7, g8, g9, g10]
  rw [nullOrUuid_jOfOpt, nullOrDate_jOfOpt]
  simp [isUUIDo, isStrO, strO, enumIncludesO, isISODateTimeO,
    isUUIDArrayO_map_jstr, strArrO_map_jstr, optStrO_some_jOfOpt,
    h1, h2, h3, h4, h4', h5, h6, h7, h7', h8, h9]

theorem validateFollowUpItem_canonical (f : FollowUpItem)
    (h : isCanonicalFollowUpItem f = true) :
    validateFollowUpItem (followUpItemJson f) = .ok f := by
  simp only [isCanonicalFollowUpItem, Bool.and_eq_true, decide_eq_true_eq,
    and_assoc] at h
  obtain ⟨h1, h2, h3, h4, h5, h6⟩ := h
  have g1 : (followUpItemJson f).get? "id" = some (.jstr f.id) := rfl
  have g2 : (followUpItemJson f).get? "contact_id" = some (.jstr f.contact_id) := rfl
  have g3 : (followUpItemJson f).get? "outreach_action_id" =
      some (jOfOpt f.outreach_action_id) := rfl
  have g4 : (followUpItemJson f).get? "due_date" = some (.jstr f.due_date) := rfl
  have g5 : (followUpItemJson f).get? "status" = some (.jstr f.status) := rfl
  have g6 : (followUpItemJson f).get? "notes" = some (.jstr f.notes) := rfl
  have g7 : (followUpItemJson f).get? "created_at" = some (.jstr f.created_at) := rfl
  have h5' : f.status ∈ FOLLOW_UP_STATUS := by simpa using h5
  unfold validateFollowUpItem
  rw [if_neg (by simp [followUpItemJson, isObjJ])]
  simp only [g1, g2, g3, g4, g5, g6, g7]
  rw [nullOrUuid_jOfOpt]
  simp [isUUIDo, isStrO, strO, enumIncludesO, isISODateO, isISODateTimeO,
    optStrO_some_jOfOpt, h1, h2, h3, h4, h5, h5', h6]

theorem validateOutcomeRecord_canonical (o : OutcomeRecord)
    (h : isCanonicalOutcomeRecord o = true) :
    validateOutcomeRecord (outcomeRecordJson o) = .ok o := by
  simp only [isCanonicalOutcomeRecord, Bool.and_eq_true, decide_eq_true_eq,
    and_assoc] at h
  obtain ⟨h1, h2, h3, h4, h5, h6⟩ := h
  have g1 : (outcomeRecordJson o).get? "id" = some (.jstr o.id) := rfl
  have g2 : (outcomeRecordJson o).get? "contact_id" = some (.jstr o.contact_id) := rfl
  have g3 : (outcomeRecordJson o).get? "final_status" = some (.jstr o.final_status) := rfl
  have g4 : (outcomeRecordJson o).get? "date_closed" = some (.jstr o.date_closed) := rfl
  have g5 : (outcomeRecordJson o).get? "reason" = some (.jstr o.reason) := rfl
  have g6 : (outcomeRecordJson o).get? "lesson_learned" = some (.jstr o.lesson_learned) := rfl
  have g7 : (outcomeRecordJson o).get? "referred_contact_id" =
      some (jOfOpt o.referred_contact_id) := rfl
  have g8 : (outcomeRecordJson o).get? "created_at" = some (.jstr o.created_at) := rfl
  have h3' : o.final_status ∈ OUTCOME_FINAL := by simpa using h3
  unfold validateOutcomeRecord
  rw [if_neg (by simp [outcomeRecordJson, isObjJ])]
  simp only [g1, g2, g3, g4, g5, g6, g7, g8]
  rw [nullOrUuid_jOfOpt]
  simp [isUUIDo, isStrO, strO, enumIncludesO, isISODateO, isISODateTimeO,
    optStrO_some_jOfOpt, h1, h2, h3, h3', h4, h5, h6]

theorem validateProject_canonical (p : Project) (h : isCanonicalProject p = true) :
    validateProject (projectJson p) = .ok p := by
  simp only [isCanonicalProject, trimmed, Bool.and_eq_true, decide_eq_true_eq,
    beq_iff_eq, and_assoc] at h
  obtain ⟨h1, h2, h3, h4, h5, h6, h7, h8, h9, h10, h11⟩ := h
  have h2' : p.name ≠ "" := h3 ▸ h2
  have h8' : p.color ≠ "" := h9 ▸ h8
  have h5' : p.status ∈ PROJECT_STATUS := by simpa using h5
  have g1 : (projectJson p).get? "id" = some (.jstr p.id) := rfl
  have g2 : (projectJson p).get? "name" = some (.jstr p.name) := rfl
  have g3 : (projectJson p).get? "description" = some (.jstr p.description) := rfl
  have g4 : (projectJson p).get? "status" = some (.jstr p.status) := rfl
  have g5 : (projectJson p).get? "start_date" = some (.jstr p.start_date) := rfl
  have g6 : (projectJson p).get? "target_end_date" = some (.jstr p.target_end_date) := rfl
  have g7 : (projectJson p).get? "color" = some (.jstr p.color) := rfl
  have g8 : (projectJson p).get? "created_at" = some (.jstr p.created_at) := rfl
  have g9 : (projectJson p).get? "updated_at" = some (.jstr p.updated_at) := rfl
  have herr : projectErrors (projectJson p) = [] := by
    simp [projectErrors, g1, g2, g3, g4, g5, g6, g7, g8, g9,
      isUUIDo, isNonEmptyStrO, isStrO, strO, isISODateO, isISODateTimeO, enumIncludesO,
      h1, h2, h3, h2', h5', h6, h7, h8, h9, h8', h10, h11]
  unfold validateProject
  rw [if_neg (by simp [projectJson, isObjJ]), if_neg (by simp [herr])]
  simp [g1, g2, g3, g4, g5, g6, g7, g8, g9, strO, h3, h4, h9]

theorem validateChecklistItem_canonical (c : ChecklistItem) (pf : String)
    (h : isCanonicalChecklistItem c = true) :
    validateChecklistItem (checklistItemJson c) pf = .ok c := by
  simp only [isCanonicalChecklistItem, trimmed, Bool.and_eq_true, decide_eq_true_eq,
    beq_iff_eq, and_assoc] at h
  obtain ⟨h1, h2, h3⟩ := h
  have h2' : c.label ≠ "" := h3 ▸ h2
  have g1 : (checklistItemJson c).get? "id" = some (.jstr c.id) := rfl
  have g2 : (checklistItemJson c).get? "label" = some (.jstr c.label) := rfl
  have g3 : (checklistItemJson c).get? "checked" = some (.jbool c.checked) := rfl
  have herr : checklistItemErrors pf (checklistItemJson c) = [] := by
    simp [checklistItemErrors, g1, g2, g3, isUUIDo, isNonEmptyStrO, isStrO, strO,
      isBoolO, h1, h2, h3, h2']
  unfold validateChecklistItem
  rw [if_neg (by simp [checklistItemJson, isObjJ]), if_neg (by simp [herr])]
  simp [g1, g2, g3, strO, boolO, h3]

theorem mapValidateChecklist_encode (cs : List ChecklistItem) (k : Nat)
    (h : ∀ c ∈ cs, isCanonicalChecklistItem c = true) :
    mapValidateChecklist k (cs.map checklistItemJson) = .ok cs := by
  induction cs generalizing k with
  | nil => rfl
  | cons c rest ih =>
    simp [mapValidateChecklist, validateChecklistItem_canonical c _ (h c (by simp)),
      ih (k + 1) (fun y hy => h y (by simp [hy]))]

theorem validatePlanItem_canonical (pi : PlanItem) (h : isCanonicalPlanItem pi = true) :
    validatePlanItem (planItemJson pi) = .ok pi := by
  simp only [isCanonicalPlanItem, trimmed, Bool.and_eq_true, decide_eq_true_eq,
    beq_iff_eq, and_assoc] at h
  obtain ⟨h1, h2, h3, h4, h5, h6, h7, h8, h9, h10, h11, h12, h13⟩ := h
  have h3' : pi.title ≠ "" := h4 ▸ h3
  have h6' : pi.category ∈ PLAN_ITEM_CATEGORY := by simpa using h6
  have h7' : pi.status ∈ PLAN_ITEM_STATUS := by simpa using h7
  have h9' : pi.priority ∈ PLAN_ITEM_PRIORITY := by simpa using h9
  have h10' : ∀ c ∈ pi.checklist, isCanonicalChecklistItem c = true := by
    simpa [List.all_eq_true] using h10
  have g1 : (planItemJson pi).get? "id" = some (.jstr pi.id) := rfl
  have g2 : (planItemJson pi).get? "project_id" = some (.jstr pi.project_id) := rfl
  have g3 : (planItemJson pi).get? "title" = some (.jstr pi.title) := rfl
  have g4 : (planItemJson pi).get? "description" = some (.jstr pi.description) := rfl
  have g5 : (planItemJson pi).get? "category" = some (.jstr pi.category) := rfl
  have g6 : (planItemJson pi).get? "status" = some (.jstr pi.status) := rfl
  have g7 : (planItemJson pi).get? "due_date" = some (jOfOpt pi.due_date) := rfl
  have g8 : (planItemJson pi).get? "priority" = some (.jstr pi.priority) := rfl
  have g9 : (planItemJson pi).get? "checklist" =
      some (.jarr (pi.checklist.map checklistItemJson)) := rfl
  have g10 : (planItemJson pi).get? "notes" = some (.jstr pi.notes) := rfl
  have g11 : (planItemJson pi).get? "created_at" = some (.jstr pi.created_at) := rfl
  have g12 : (planItemJson pi).get? "updated_at" = some (.jstr pi.updated_at) := rfl
  have herr : planItemErrors (planItemJson pi) = [] := by
    simp only [planItemErrors, g1, g2, g3, g4, g5, g6, g7, g8, g9, g10, g11, g12]
    rw [nullOrDate_jOfOpt]
    simp [isUUIDo, isNonEmptyStrO, isStrO, strO, isISODateO, isISODateTimeO,
      enumIncludesO, isArrayO, h1, h2, h3, h4, h3', h6', h7', h8, h9', h11, h12, h13]
  unfold validatePlanItem
  rw [if_neg (by simp [planItemJson, isObjJ]), if_neg (by simp [herr])]
  have harr : arrO ((planItemJson pi).get? "checklist") =
      pi.checklist.map checklistItemJson := rfl
  rw [harr, mapValidateChecklist_encode pi.checklist 0 h10']
  simp [g1, g2, g3, g4, g5, g6, g7, g8, g10, g11, g12, strO, h4, h5, h11,
    optStrO_some_jOfOpt]

theorem mapValidateIdx_encode {α : Type} (c : String) (vf : Json → Except String α)
    (enc : α → Json) (xs : List α) (k : Nat)
    (h : ∀ x ∈ xs, vf (enc x) = .ok x) :
    mapValidateIdx c vf k (xs.map enc) = .ok xs := by
  induction xs generalizing k with
  | nil => rfl
  | cons x rest ih =>
    simp [mapValidateIdx, h x (by simp), ih (k + 1) (fun y hy => h y (by simp [hy]))]

/-- C7: for every valid (validator-canonical) in-memory collection set,
saving it as a snapshot (which stamps `updated_at` with the write clock)
and loading that snapshot again yields exactly the same entity records —
projects, plan items and all five outreach collections, record for
record — with only the container's `updated_at` field differing. -/
theorem c7_snapshot_round_trip
    (s : MasterPlanSnapshot) (os : OutreachSnapshot) (wNow lNow : String)
    (hp : s.projects.all isCanonicalProject = true)
    (hi : s.plan_items.all isCanonicalPlanItem = true)
    (hc : os.categories.all isCanonicalContactCategory = true)
    (hct : os.contacts.all isCanonicalContact = true)
    (ha : os.outreach_actions.all isCanonicalOutreachAction = true)
    (hf : os.follow_ups.all isCanonicalFollowUpItem = true)
    (ho : os.outcomes.all isCanonicalOutcomeRecord = true) :
    loadSnapshot (.parsed (saveSnapshot s wNow)) lNow =
      .ok { version := s.version, updated_at := wNow,
            projects := s.projects, plan_items := s.plan_items } ∧
    loadOutreachSnapshot (.parsed (saveOutreachSnapshot os wNow)) lNow =
      .ok { version := os.version, updated_at := wNow,
            categories := os.categories, contacts := os.contacts,
            outreach_actions := os.outreach_actions,
            follow_ups := os.follow_ups, outcomes := os.outcomes } := by
  simp only [List.all_eq_true] at hp hi hc hct ha hf ho
  constructor
  · have gv : (saveSnapshot s wNow).get? "version" = some (.jnum s.version) := rfl
    have gu : (saveSnapshot s wNow).get? "updated_at" = some (.jstr wNow) := rfl
    have gp : (saveSnapshot s wNow).get? "projects" =
        some (.jarr (s.projects.map projectJson)) := rfl
    have gi2 : (saveSnapshot s wNow).get? "plan_items" =
        some (.jarr (s.plan_items.map planItemJson)) := rfl
    have hobj : rootPassesObjectCheck (saveSnapshot s wNow) = true := rfl
    unfold loadSnapshot
    simp only [gv, gu, gp, gi2, hobj]
    rw [mapValidateIdx_encode "Project" validateProject projectJson s.projects 0
        (fun x hx => validateProject_canonical x (hp x hx)),
      mapValidateIdx_encode "PlanItem" validatePlanItem planItemJson s.plan_items 0
        (fun x hx => validatePlanItem_canonical x (hi x hx))]
    rfl
  · have gv : (saveOutreachSnapshot os wNow).get? "version" = some (.jnum os.version) := rfl
    have gu : (saveOutreachSnapshot os wNow).get? "updated_at" = some (.jstr wNow) := rfl
    have gc : (saveOutreachSnapshot os wNow).get? "categories" =
        some (.jarr (os.categories.map contactCategoryJson)) := rfl
    have gct : (saveOutreachSnapshot os wNow).get? "contacts" =
        some (.jarr (os.contacts.map contactJson)) := rfl
    have ga : (saveOutreachSnapshot os wNow).get? "outreach_actions" =
        some (.jarr (os.outreach_actions.map outreachActionJson)) := rfl
    have gf : (saveOutreachSnapshot os wNow).get? "follow_ups" =
        some (.jarr (os.follow_ups.map followUpItemJson)) := rfl
    have go : (saveOutreachSnapshot os wNow).get? "outcomes" =
        some (.jarr (os.outcomes.map outcomeRecordJson)) := rfl
    have hobj : rootPassesObjectCheck (saveOutreachSnapshot os wNow) = true := rfl
    unfold loadOutreachSnapshot
    simp only [gv, gu, gc, gct, ga, gf, go, hobj]
    rw [mapValidateIdx_encode "Category" validateContactCategory contactCategoryJson
        os.categories 0 (fun x hx => validateContactCategory_canonical x (hc x hx)),
      mapValidateIdx_encode "Contact" validateContact contactJson
        os.contacts 0 (fun x hx => validateContact_canonical x (hct x hx)),
      mapValidateIdx_encode "OutreachAction" validateOutreachAction outreachActionJson
        os.outreach_actions 0 (fun x hx => validateOutreachAction_canonical x (ha x hx)),
      mapValidateIdx_encode "FollowUp" validateFollowUpItem followUpItemJson
        os.follow_ups 0 (fun x hx => validateFollowUpItem_canonical x (hf x hx)),
      mapValidateIdx_encode "Outcome" validateOutcomeRecord outcomeRecordJson
        os.outcomes 0 (fun x hx => validateOutcomeRecord_canonical x (ho x hx))]
    rfl

def c7Snap : MasterPlanSnapshot :=
  { version := 3, updated_at := "2025-11-13T00:00:00Z",
    projects := [c4Proj],
    plan_items := [⟨"i1", "p1", "Task", "Do", "Drafting", "NotStarted",
      some "2025-11-14", "Normal", [⟨"k1", "Step A", false⟩], "",
      "2025-11-13T00:00:00Z", "2025-11-13T00:00:00Z"⟩] }

def c7OSnap : OutreachSnapshot :=
  { version := 2, updated_at := "2025-11-13T00:00:00Z",
    categories := [⟨"k1", "Media", "#f00", ["press"],
      "2025-01-01T00:00:00Z", "2025-01-01T00:00:00Z"⟩],
    contacts := [c10Contact],
    outreach_actions := [c10Action "a1" "c1"],
    follow_ups := [⟨"f1", "c1", some "a1", "2025-02-01", "Open", "",
      "2025-01-02T00:00:00Z"⟩],
    outcomes := [⟨"o1", "c1", "CompletedHelp", "2025-03-01", "done", "lots",
      none, "2025-03-01T00:00:00Z"⟩] }

theorem c7_witness :
    loadSnapshot (.parsed (saveSnapshot c7Snap "2025-12-01T00:00:00Z"))
        "2025-12-02T00:00:00Z" =
      .ok { version := 3, updated_at := "2025-12-01T00:00:00Z",
            projects := c7Snap.projects, plan_items := c7Snap.plan_items } ∧
    loadOutreachSnapshot (.parsed (saveOutreachSnapshot c7OSnap "2025-12-01T00:00:00Z"))
        "2025-12-02T00:00:00Z" =
      .ok { version := 2, updated_at := "2025-12-01T00:00:00Z",
            categories := c7OSnap.categories, contacts := c7OSnap.contacts,
            outreach_actions := c7OSnap.outreach_actions,
            follow_ups := c7OSnap.follow_ups, outcomes := c7OSnap.outcomes } := by
  obtain ⟨h1, h2⟩ := c7_snapshot_round_trip c7Snap c7OSnap
    "2025-12-01T00:00:00Z" "2025-12-02T00:00:00Z"
    (by decide) (by decide) (by decide) (by decide) (by decide) (by decide) (by decide)
  exact ⟨h1, h2⟩

end Spark
